import Mathlib

/-!
Shallow embedding of the backend-for-frontend API route handlers of the
Cardano 1inch Fusion repository.

Each Next.js route handler is modelled as a pure Lean function.  The
upstream HTTP layer (`fetch`) is abstracted as an oracle
`FetchCall → FetchOutcome β` where `β` is the shape of the JSON body an
upstream success returns; a non-2xx upstream response is
`FetchOutcome.httpError status statusText errorText` (mirroring
`response.ok = false`, `response.statusText`, `await response.text()`).
Handlers return a `RouteResult`: the HTTP status, the JSON body (either an
error object `{error, details?}` or the route's success payload), and the
list of upstream calls that were issued, in order.

JavaScript-specific behaviours are modelled explicitly:
`searchParams.get` returns `Option String` (`none` for an absent
parameter), `x || d` treats both `none` and the empty string as falsy
(`jsOrS`), destructuring defaults replace only `undefined` (`Option.getD`),
`parseInt` is `jsParseInt`, and interpolating `undefined` into a template
literal yields the string "undefined" (`authHeader`, `jsShow`).

Presentation-only JSON fields that no claim touches (timestamps, the
Gwei/decimal cosmetic reformatting of bodies, the transformed transaction
list of the history route) are elided; the raw upstream body is retained
in the payload instead.
-/

namespace OneInch

/-- JavaScript truthiness of a nullable string: `null`/`undefined` and the
empty string are falsy. -/
def jsTruthy : Option String → Bool
  | none => false
  | some s => s ≠ ""

/-- `o || d` on a nullable string, as in `searchParams.get('x') || 'd'`. -/
def jsOrS (o : Option String) (d : String) : String :=
  match o with
  | none => d
  | some s => if s = "" then d else s

/-- `s || d` on a string already in scope, as in `chainIds || '1'`. -/
def jsOrStr (s d : String) : String :=
  if s = "" then d else s

/-- Interpolating a possibly-`undefined` value into a template literal,
as in `` `Invalid action: ${action}` ``. -/
def jsShow (o : Option String) : String :=
  o.getD "undefined"

/-- One hexadecimal digit, as matched by `[a-fA-F0-9]`. -/
def isHexDigit (c : Char) : Bool :=
  c.isDigit || ('a' ≤ c && c ≤ 'f') || ('A' ≤ c && c ≤ 'F')

/-- The regex `^0x[a-fA-F0-9]{40}$` on a character list. -/
def isHexAddressL : List Char → Bool
  | '0' :: 'x' :: rest => rest.length = 40 && rest.all isHexDigit
  | _ => false

/-- The regex `^0x[a-fA-F0-9]{40}$` used by the routes to validate a
wallet address. -/
def isHexAddress (s : String) : Bool :=
  isHexAddressL s.toList

/-- Strip leading and trailing whitespace from a character list. -/
def trimChars (l : List Char) : List Char :=
  ((l.dropWhile Char.isWhitespace).reverse.dropWhile Char.isWhitespace).reverse

/-- JavaScript `s.trim()`. -/
def jsTrim (s : String) : String :=
  String.mk (trimChars s.toList)

/-- JavaScript `s.split(sep)` for a one-character separator, on character
lists; the empty string splits to `['']`. -/
def splitOnChar (sep : Char) : List Char → List (List Char)
  | [] => [[]]
  | c :: rest =>
    let r := splitOnChar sep rest
    if c = sep then [] :: r
    else
      match r with
      | [] => [[c]]
      | h :: t => (c :: h) :: t

/-- JavaScript `s.includes(c)` for a single character. -/
def jsIncludes (s : String) (c : Char) : Bool :=
  s.toList.contains c

/-- Numeric value of a hexadecimal digit character. -/
def hexVal (c : Char) : Nat :=
  if c.isDigit then c.toNat - 48
  else if 'a' ≤ c && c ≤ 'f' then c.toNat - 87
  else if 'A' ≤ c && c ≤ 'F' then c.toNat - 55
  else 0

/-- Digits of `l` in base `base` folded into a natural number. -/
def digitsToNat (base : Nat) (l : List Char) : Nat :=
  l.foldl (fun acc c => acc * base + hexVal c) 0

/-- JavaScript `parseInt(s)` with no radix argument: skip leading
whitespace, read an optional sign, auto-detect a `0x`/`0X` hexadecimal
prefix, and parse the longest prefix of digits; `none` models `NaN`. -/
def jsParseInt (s : String) : Option Int :=
  let t := s.toList.dropWhile Char.isWhitespace
  let (sign, r) :=
    match t with
    | '-' :: rest => ((-1 : Int), rest)
    | '+' :: rest => ((1 : Int), rest)
    | _ => ((1 : Int), t)
  let (base, digits) :=
    match r with
    | '0' :: 'x' :: rest => (16, rest)
    | '0' :: 'X' :: rest => (16, rest)
    | _ => (10, r)
  let pred := if base = 16 then isHexDigit else Char.isDigit
  let ds := digits.takeWhile pred
  if ds.isEmpty then none
  else some (sign * (digitsToNat base ds : Int))

/-- A single upstream HTTP request: the URL and the `Authorization`
header sent with it. -/
structure FetchCall where
  url : String
  auth : String
deriving DecidableEq, Repr

/-- Outcome of an upstream `fetch`: a 2xx response carrying a JSON body of
shape `β`, or a non-ok response with its status, status text and body
text. -/
inductive FetchOutcome (β : Type) where
  | ok (body : β)
  | httpError (status : Nat) (statusText : String) (errorText : String)
deriving DecidableEq

/-- `Authorization` header value built by every route:
`` `Bearer ${process.env.ONEINCH_API_KEY}` ``.  When the environment
variable is absent the template literal interpolates `undefined`. -/
def authHeader (apiKey : Option String) : String :=
  "Bearer " ++ (match apiKey with | some k => k | none => "undefined")

/-- The upstream request a handler issues for a given URL. -/
def fetchCallOf (apiKey : Option String) (url : String) : FetchCall :=
  ⟨url, authHeader apiKey⟩

/-- Error message thrown by every `makeRequest` helper on a non-ok
upstream response. -/
def apiFailMsg (status : Nat) (statusText errorText : String) : String :=
  "API request failed: " ++ toString status ++ " " ++ statusText ++ " - " ++ errorText

/-- The shared `makeRequest` helper: issue the request with the bearer
header and either return the JSON body or throw the wrapped error
message. -/
def makeRequest (fetch : FetchCall → FetchOutcome β) (apiKey : Option String)
    (url : String) : Except String β :=
  match fetch (fetchCallOf apiKey url) with
  | .ok body => .ok body
  | .httpError st stText errText => .error (apiFailMsg st stText errText)

/-- JSON body of a route response: an error object
`{error, details?}` or the route's success payload. -/
inductive RouteBody (σ : Type) where
  | err (error : String) (details : Option String)
  | payload (p : σ)
deriving DecidableEq

/-- Result of one route handler invocation: HTTP status, JSON body, and
the upstream requests made, in order. -/
structure RouteResult (σ : Type) where
  status : Nat
  body : RouteBody σ
  fetched : List FetchCall
deriving DecidableEq

/-! ## Wallet-history route (`src/unnamed/part_004`) -/

def HISTORY_BASE : String := "https://api.1inch.dev/history/v2.0/history"

/-- Success payload of the wallet-history route (the transformed
transaction list is elided; the raw upstream body is kept). -/
structure HistoryPayload (β : Type) where
  success : Bool
  address : String
  chain : String
  chainId : String
  data : β
deriving DecidableEq

/-- The wallet-history `GET` handler.  Note the constructed URL
interpolates the literal `1` (`` `chainId=${1}` ``), not the `chainId`
variable read from the query string. -/
def historyGET (apiKey : Option String) (fetch : FetchCall → FetchOutcome β)
    (address limit0 chain0 chainId0 : Option String) :
    RouteResult (HistoryPayload β) :=
  let limit := jsOrS limit0 "10"
  let chain := jsOrS chain0 "ethereum"
  let chainId := jsOrS chainId0 "1"
  match address with
  | none => ⟨400, .err "wallet address is Required" none, []⟩
  | some addr =>
    if addr = "" then ⟨400, .err "wallet address is Required" none, []⟩
    else
      let url := HISTORY_BASE ++ "/" ++ addr ++ "/events?chainId=1&limit=" ++ limit
      let call := fetchCallOf apiKey url
      match fetch call with
      | .ok body => ⟨200, .payload ⟨true, addr, chain, chainId, body⟩, [call]⟩
      | .httpError st stText _ =>
        if st = 401 then ⟨401, .err "Invalid API key" none, [call]⟩
        else if st = 429 then ⟨429, .err "Rate limit exceeded" none, [call]⟩
        else
          ⟨500, .err "Failed to fetch wallet transactions"
                  (some ("1inch API error: " ++ toString st ++ " " ++ stText)),
           [call]⟩

/-! ## NFT route (`src/unnamed/part_003`) -/

def NFT_BASE : String := "https://api.1inch.dev/nft/v1/byaddress"

/-- Upstream body of the NFT route: the `assets` field may be absent. -/
structure NftBody (α : Type) where
  assets : Option (List α)
deriving DecidableEq

/-- The `transformedData` object built by the NFT route. -/
structure NftData (α : Type) where
  body : NftBody α
  address : String
  chainIds : String
  limit : Int
  offset : Int
  totalItems : Nat
  hasMore : Bool
  nextOffset : Int
deriving DecidableEq

/-- `transformedData` from the upstream body and validated parameters:
`totalItems = data.assets?.length || 0`,
`hasMore = (data.assets?.length === numericLimit)`,
`nextOffset = numericOffset + numericLimit`. -/
def nftTransform (body : NftBody α) (addr chainIds : String)
    (numericLimit numericOffset : Int) : NftData α :=
  { body := body
    address := addr
    chainIds := chainIds
    limit := numericLimit
    offset := numericOffset
    totalItems := match body.assets with | some l => l.length | none => 0
    hasMore := match body.assets with
               | some l => decide ((l.length : Int) = numericLimit)
               | none => false
    nextOffset := numericOffset + numericLimit }

/-- Success payload of the NFT `GET` route. -/
structure NftPayload (α : Type) where
  success : Bool
  data : NftData α
deriving DecidableEq

def nftUrl (addr chainIds limit offset : String) : String :=
  NFT_BASE ++ "?address=" ++ addr ++ "&chainIds=" ++ chainIds ++
    "&limit=" ++ limit ++ "&offset=" ++ offset

/-- The NFT `GET` handler. -/
def nftGET (apiKey : Option String) (fetch : FetchCall → FetchOutcome (NftBody α))
    (address chainIds0 limit0 offset0 : Option String) :
    RouteResult (NftPayload α) :=
  let chainIds := jsOrS chainIds0 "1"
  let limit := jsOrS limit0 "50"
  let offset := jsOrS offset0 "0"
  match address with
  | none => ⟨400, .err "Address parameter is required" none, []⟩
  | some addr =>
    if addr = "" then ⟨400, .err "Address parameter is required" none, []⟩
    else if isHexAddress addr then
      match jsParseInt limit with
      | none => ⟨400, .err "Limit must be a number between 1 and 100" none, []⟩
      | some numericLimit =>
        if numericLimit < 1 ∨ 100 < numericLimit then
          ⟨400, .err "Limit must be a number between 1 and 100" none, []⟩
        else
          match jsParseInt offset with
          | none => ⟨400, .err "Offset must be a non-negative number" none, []⟩
          | some numericOffset =>
            if numericOffset < 0 then
              ⟨400, .err "Offset must be a non-negative number" none, []⟩
            else
              let url := nftUrl addr chainIds limit offset
              match makeRequest fetch apiKey url with
              | .ok body =>
                ⟨200, .payload ⟨true, nftTransform body addr chainIds numericLimit numericOffset⟩,
                 [fetchCallOf apiKey url]⟩
              | .error e =>
                ⟨500, .err "Failed to fetch NFT data" (some e), [fetchCallOf apiKey url]⟩
    else ⟨400, .err "Invalid wallet address format" none, []⟩

/-! ## Batch infrastructure shared by the `POST` handlers -/

/-- Response of a batch `POST` handler: a 400 `{error}` object when the
input array is missing/not an array, or the 200 summary object. -/
inductive BatchResp (ε : Type) where
  | badRequest (error : String)
  | okResp (success : Bool) (results : List ε) (total successful failed : Nat)
deriving DecidableEq

def BatchResp.statusOf : BatchResp ε → Nat
  | .badRequest _ => 400
  | .okResp _ _ _ _ _ => 200

def BatchResp.resultsOf : BatchResp ε → List ε
  | .badRequest _ => []
  | .okResp _ r _ _ _ => r

def BatchResp.totalOf : BatchResp ε → Nat
  | .badRequest _ => 0
  | .okResp _ _ t _ _ => t

def BatchResp.successfulOf : BatchResp ε → Nat
  | .badRequest _ => 0
  | .okResp _ _ _ s _ => s

def BatchResp.failedOf : BatchResp ε → Nat
  | .badRequest _ => 0
  | .okResp _ _ _ _ f => f

def BatchResp.topSuccess : BatchResp ε → Bool
  | .badRequest _ => false
  | .okResp s _ _ _ _ => s

/-- The sequential `for` loop of every batch handler: one result entry is
pushed per input item, in input order (the fixed inter-call delay has no
effect on the computed values). -/
def batchLoop (f : α → ε) : List α → List ε
  | [] => []
  | x :: xs => f x :: batchLoop f xs

/-! ## Gas-price route (`src/frontend/src/app/api/gasprice/route.tsx`) -/

def GAS_BASE : String := "https://api.1inch.dev/gas-price/v1.4"

/-- `SUPPORTED_CHAINS` of the gas-price route. -/
def gasChains (c : String) : Option String :=
  if c = "ethereum" then some "1"
  else if c = "bsc" then some "56"
  else if c = "polygon" then some "137"
  else if c = "optimism" then some "10"
  else if c = "arbitrum" then some "42161"
  else if c = "gnosis" then some "100"
  else if c = "avalanche" then some "43114"
  else if c = "fantom" then some "250"
  else if c = "klaytn" then some "8217"
  else if c = "aurora" then some "1313161554"
  else if c = "zksync" then some "324"
  else none

/-- Success payload of the gas-price `GET` route (the cosmetic
`gasPricesGwei` reformatting is elided; the raw body is kept). -/
structure GasPayload (β : Type) where
  success : Bool
  chainId : String
  chain : String
  data : β
deriving DecidableEq

/-- The gas-price `GET` handler: `chainId || SUPPORTED_CHAINS[chain] || '1'`. -/
def gaspriceGET (apiKey : Option String) (fetch : FetchCall → FetchOutcome β)
    (chain0 chainId0 : Option String) : RouteResult (GasPayload β) :=
  let chain := jsOrS chain0 "ethereum"
  let chainId := jsOrS chainId0 (jsOrS (gasChains chain) "1")
  let url := GAS_BASE ++ "/" ++ chainId
  match makeRequest fetch apiKey url with
  | .ok body => ⟨200, .payload ⟨true, chainId, chain, body⟩, [fetchCallOf apiKey url]⟩
  | .error e => ⟨500, .err "Failed to fetch gas prices" (some e), [fetchCallOf apiKey url]⟩

/-- One sub-request of the gas-price batch `POST` body. -/
structure ChainReq where
  chain : Option String
  chainId : Option String
deriving DecidableEq

/-- One entry of the gas-price batch results array. -/
structure GasEntry (β : Type) where
  success : Bool
  chainId : String
  chain : String
  data : Option β
  error : Option String
deriving DecidableEq

/-- The `try` block of one gas-price batch iteration. -/
def gaspriceItemCore (apiKey : Option String) (fetch : FetchCall → FetchOutcome β)
    (c : ChainReq) : Except String (String × β) :=
  let finalChainId := jsOrS c.chainId (jsOrS (c.chain.bind gasChains) "1")
  match makeRequest fetch apiKey (GAS_BASE ++ "/" ++ finalChainId) with
  | .ok body => .ok (finalChainId, body)
  | .error e => .error e

/-- One gas-price batch iteration including the `catch`: a thrown error is
recorded as a `{success:false, …, error}` entry. -/
def gaspriceItem (apiKey : Option String) (fetch : FetchCall → FetchOutcome β)
    (c : ChainReq) : GasEntry β :=
  match gaspriceItemCore apiKey fetch c with
  | .ok (cid, body) => ⟨true, cid, jsOrS c.chain "ethereum", some body, none⟩
  | .error e => ⟨false, jsOrS c.chainId "1", jsOrS c.chain "ethereum", none, some e⟩

/-- The gas-price batch `POST` handler. -/
def gaspricePOST (apiKey : Option String) (fetch : FetchCall → FetchOutcome β)
    (chains : Option (List ChainReq)) : BatchResp (GasEntry β) :=
  match chains with
  | none => .badRequest "Chains array is required"
  | some items =>
    let results := batchLoop (gaspriceItem apiKey fetch) items
    .okResp true results items.length
      (results.filter (fun r => r.success)).length
      (results.filter (fun r => !r.success)).length

/-! ## NFT batch `POST` (`src/unnamed/part_003`) -/

/-- One sub-request of the NFT batch body; destructuring defaults
(`chainIds = '1'`, `limit = '50'`, `offset = '0'`) replace only an absent
(`undefined`) field. -/
structure NftReq where
  address : Option String
  chainIds : Option String
  limit : Option String
  offset : Option String
deriving DecidableEq

/-- One entry of the NFT batch results array. -/
structure NftEntry (α : Type) where
  success : Bool
  address : String
  chainIds : String
  data : Option (NftData α)
  error : Option String
deriving DecidableEq

/-- The `try` block of one NFT batch iteration. -/
def nftItemCore (apiKey : Option String) (fetch : FetchCall → FetchOutcome (NftBody α))
    (r : NftReq) : Except String (String × String × NftData α) :=
  let chainIds := r.chainIds.getD "1"
  let limit := r.limit.getD "50"
  let offset := r.offset.getD "0"
  match r.address with
  | none => .error "Address is required for each request"
  | some addr =>
    if addr = "" then .error "Address is required for each request"
    else if isHexAddress addr then
      match jsParseInt limit with
      | none => .error "Limit must be a number between 1 and 100"
      | some numericLimit =>
        if numericLimit < 1 ∨ 100 < numericLimit then
          .error "Limit must be a number between 1 and 100"
        else
          match jsParseInt offset with
          | none => .error "Offset must be a non-negative number"
          | some numericOffset =>
            if numericOffset < 0 then
              .error "Offset must be a non-negative number"
            else
              match makeRequest fetch apiKey (nftUrl addr chainIds limit offset) with
              | .ok body => .ok (addr, chainIds, nftTransform body addr chainIds numericLimit numericOffset)
              | .error e => .error e
    else .error "Invalid wallet address format"

/-- One NFT batch iteration including the `catch`: on failure the entry
records `address || 'unknown'` and `chainIds || '1'`. -/
def nftItem (apiKey : Option String) (fetch : FetchCall → FetchOutcome (NftBody α))
    (r : NftReq) : NftEntry α :=
  match nftItemCore apiKey fetch r with
  | .ok (addr, cids, d) => ⟨true, addr, cids, some d, none⟩
  | .error e => ⟨false, jsOrS r.address "unknown", jsOrStr (r.chainIds.getD "1") "1", none, some e⟩

/-- The NFT batch `POST` handler. -/
def nftPOST (apiKey : Option String) (fetch : FetchCall → FetchOutcome (NftBody α))
    (requests : Option (List NftReq)) : BatchResp (NftEntry α) :=
  match requests with
  | none => .badRequest "Requests array is required"
  | some items =>
    let results := batchLoop (nftItem apiKey fetch) items
    .okResp true results items.length
      (results.filter (fun r => r.success)).length
      (results.filter (fun r => !r.success)).length

/-! ## Portfolio route (`src/unnamed/part_005`) -/

def PORTFOLIO_BASE : String := "https://api.1inch.dev/portfolio/portfolio/v4/overview/erc20"

/-- `addresses.split(',').every(addr => /^0x[a-fA-F0-9]{40}$/.test(addr.trim()))`. -/
def validAddrList (addresses : String) : Bool :=
  (splitOnChar ',' addresses.toList).all (fun addr => isHexAddressL (trimChars addr))

/-- Data returned by the portfolio route: a single upstream body, or for
`action=all` the `{currentValue, tokenDetails, profitAndLoss}` object. -/
inductive PortfolioData (β : Type) where
  | single (body : β)
  | all (currentValue tokenDetails : β) (profitAndLoss : Option β)
deriving DecidableEq

/-- Success payload of the portfolio `GET` route. -/
structure PortfolioPayload (β : Type) where
  success : Bool
  action : String
  addresses : String
  chainId : String
  data : PortfolioData β
deriving DecidableEq

def portfolioCurrentValueUrl (addresses chainId : String) : String :=
  PORTFOLIO_BASE ++ "/current_value?addresses=" ++ addresses ++ "&chain_id=" ++ chainId

def portfolioDetailsUrl (addresses chainId : String) : String :=
  PORTFOLIO_BASE ++ "/details?addresses=" ++ addresses ++ "&chain_id=" ++ chainId

def portfolioPnlUrl (addresses chainId fromTs toTs : String) : String :=
  PORTFOLIO_BASE ++ "/profit_and_loss?addresses=" ++ addresses ++ "&chain_id=" ++ chainId ++
    "&from_timestamp=" ++ fromTs ++ "&to_timestamp=" ++ toTs

/-- The portfolio `GET` handler. -/
def portfolioGET (apiKey : Option String) (fetch : FetchCall → FetchOutcome β)
    (action0 addresses0 chainId0 fromTs0 toTs0 : Option String) :
    RouteResult (PortfolioPayload β) :=
  let chainId := jsOrS chainId0 "1"
  if jsTruthy action0 = false then
    ⟨400, .err "Action parameter is required. Use: currentValue, profitAndLoss, tokenDetails, or all" none, []⟩
  else if jsTruthy addresses0 = false then
    ⟨400, .err "Wallet addresses parameter is required" none, []⟩
  else
    let action := action0.getD ""
    let addresses := addresses0.getD ""
    if validAddrList addresses = false then
      ⟨400, .err "Invalid wallet address format" none, []⟩
    else if action = "currentValue" then
      let url := portfolioCurrentValueUrl addresses chainId
      match makeRequest fetch apiKey url with
      | .ok b => ⟨200, .payload ⟨true, action, addresses, chainId, .single b⟩, [fetchCallOf apiKey url]⟩
      | .error e => ⟨500, .err "Failed to fetch portfolio data" (some e), [fetchCallOf apiKey url]⟩
    else if action = "profitAndLoss" then
      if jsTruthy fromTs0 = false ∨ jsTruthy toTs0 = false then
        ⟨400, .err "fromTimestamp and toTimestamp parameters are required for profitAndLoss action" none, []⟩
      else
        let url := portfolioPnlUrl addresses chainId (fromTs0.getD "") (toTs0.getD "")
        match makeRequest fetch apiKey url with
        | .ok b => ⟨200, .payload ⟨true, action, addresses, chainId, .single b⟩, [fetchCallOf apiKey url]⟩
        | .error e => ⟨500, .err "Failed to fetch portfolio data" (some e), [fetchCallOf apiKey url]⟩
    else if action = "tokenDetails" then
      let url := portfolioDetailsUrl addresses chainId
      match makeRequest fetch apiKey url with
      | .ok b => ⟨200, .payload ⟨true, action, addresses, chainId, .single b⟩, [fetchCallOf apiKey url]⟩
      | .error e => ⟨500, .err "Failed to fetch portfolio data" (some e), [fetchCallOf apiKey url]⟩
    else if action = "all" then
      let cvUrl := portfolioCurrentValueUrl addresses chainId
      match makeRequest fetch apiKey cvUrl with
      | .error e => ⟨500, .err "Failed to fetch portfolio data" (some e), [fetchCallOf apiKey cvUrl]⟩
      | .ok cv =>
        let tdUrl := portfolioDetailsUrl addresses chainId
        match makeRequest fetch apiKey tdUrl with
        | .error e =>
          ⟨500, .err "Failed to fetch portfolio data" (some e),
           [fetchCallOf apiKey cvUrl, fetchCallOf apiKey tdUrl]⟩
        | .ok td =>
          if jsTruthy fromTs0 && jsTruthy toTs0 then
            let pnlUrl := portfolioPnlUrl addresses chainId (fromTs0.getD "") (toTs0.getD "")
            match makeRequest fetch apiKey pnlUrl with
            | .error e =>
              ⟨500, .err "Failed to fetch portfolio data" (some e),
               [fetchCallOf apiKey cvUrl, fetchCallOf apiKey tdUrl, fetchCallOf apiKey pnlUrl]⟩
            | .ok pnl =>
              ⟨200, .payload ⟨true, action, addresses, chainId, .all cv td (some pnl)⟩,
               [fetchCallOf apiKey cvUrl, fetchCallOf apiKey tdUrl, fetchCallOf apiKey pnlUrl]⟩
          else
            ⟨200, .payload ⟨true, action, addresses, chainId, .all cv td none⟩,
             [fetchCallOf apiKey cvUrl, fetchCallOf apiKey tdUrl]⟩
    else
      ⟨400, .err "Invalid action. Use: currentValue, profitAndLoss, tokenDetails, or all" none, []⟩

/-- One operation of the portfolio batch body (`chainId = '1'` is a
destructuring default). -/
structure PortfolioOp where
  action : Option String
  addresses : Option String
  chainId : Option String
  fromTimestamp : Option String
  toTimestamp : Option String
deriving DecidableEq

/-- One entry of the portfolio batch results array. -/
structure PortfolioEntry (β : Type) where
  success : Bool
  action : Option String
  addresses : Option String
  chainId : String
  data : Option β
  error : Option String
deriving DecidableEq

/-- The `try` block of one portfolio batch iteration. -/
def portfolioItemCore (apiKey : Option String) (fetch : FetchCall → FetchOutcome β)
    (op : PortfolioOp) : Except String β :=
  let chainId := op.chainId.getD "1"
  if jsTruthy op.addresses = false then .error "addresses is required for all operations"
  else
    let addresses := op.addresses.getD ""
    if op.action = some "currentValue" then
      makeRequest fetch apiKey (portfolioCurrentValueUrl addresses chainId)
    else if op.action = some "profitAndLoss" then
      if jsTruthy op.fromTimestamp = false ∨ jsTruthy op.toTimestamp = false then
        .error "fromTimestamp and toTimestamp are required for profitAndLoss"
      else
        makeRequest fetch apiKey
          (portfolioPnlUrl addresses chainId (op.fromTimestamp.getD "") (op.toTimestamp.getD ""))
    else if op.action = some "tokenDetails" then
      makeRequest fetch apiKey (portfolioDetailsUrl addresses chainId)
    else .error ("Invalid action: " ++ jsShow op.action)

/-- One portfolio batch iteration including the `catch`. -/
def portfolioItem (apiKey : Option String) (fetch : FetchCall → FetchOutcome β)
    (op : PortfolioOp) : PortfolioEntry β :=
  match portfolioItemCore apiKey fetch op with
  | .ok b => ⟨true, op.action, op.addresses, op.chainId.getD "1", some b, none⟩
  | .error e => ⟨false, op.action, op.addresses, op.chainId.getD "1", none, some e⟩

/-- The portfolio batch `POST` handler. -/
def portfolioPOST (apiKey : Option String) (fetch : FetchCall → FetchOutcome β)
    (operations : Option (List PortfolioOp)) : BatchResp (PortfolioEntry β) :=
  match operations with
  | none => .badRequest "Operations array is required"
  | some items =>
    let results := batchLoop (portfolioItem apiKey fetch) items
    .okResp true results items.length
      (results.filter (fun r => r.success)).length
      (results.filter (fun r => !r.success)).length

/-! ## Traces route (`src/unnamed/part_008`) -/

def TRACES_BASE : String := "https://api.1inch.dev/traces/v1.0/chain"

/-- Success payload of the traces `GET` route. -/
structure TracesPayload (β : Type) where
  success : Bool
  action : String
  chain : String
  data : β
deriving DecidableEq

/-- The traces `GET` handler. -/
def tracesGET (apiKey : Option String) (fetch : FetchCall → FetchOutcome β)
    (action0 chain0 blockNumber0 txHash0 : Option String) :
    RouteResult (TracesPayload β) :=
  let chain := jsOrS chain0 "1"
  if jsTruthy action0 = false then
    ⟨400, .err "Action parameter is required. Use: syncedInterval, blockTrace, or txTrace" none, []⟩
  else
    let action := action0.getD ""
    if action = "syncedInterval" then
      let url := TRACES_BASE ++ "/" ++ chain ++ "/synced-interval"
      match makeRequest fetch apiKey url with
      | .ok b => ⟨200, .payload ⟨true, action, chain, b⟩, [fetchCallOf apiKey url]⟩
      | .error e => ⟨500, .err "Failed to fetch trace data" (some e), [fetchCallOf apiKey url]⟩
    else if action = "blockTrace" then
      if jsTruthy blockNumber0 = false then
        ⟨400, .err "blockNumber parameter is required for blockTrace action" none, []⟩
      else
        let url := TRACES_BASE ++ "/" ++ chain ++ "/block-trace/" ++ blockNumber0.getD ""
        match makeRequest fetch apiKey url with
        | .ok b => ⟨200, .payload ⟨true, action, chain, b⟩, [fetchCallOf apiKey url]⟩
        | .error e => ⟨500, .err "Failed to fetch trace data" (some e), [fetchCallOf apiKey url]⟩
    else if action = "txTrace" then
      if jsTruthy blockNumber0 = false ∨ jsTruthy txHash0 = false then
        ⟨400, .err "blockNumber and txHash parameters are required for txTrace action" none, []⟩
      else
        let url := TRACES_BASE ++ "/" ++ chain ++ "/block-trace/" ++ blockNumber0.getD "" ++
                     "/tx-hash/" ++ txHash0.getD ""
        match makeRequest fetch apiKey url with
        | .ok b => ⟨200, .payload ⟨true, action, chain, b⟩, [fetchCallOf apiKey url]⟩
        | .error e => ⟨500, .err "Failed to fetch trace data" (some e), [fetchCallOf apiKey url]⟩
    else
      ⟨400, .err "Invalid action. Use: syncedInterval, blockTrace, or txTrace" none, []⟩

/-- One operation of the traces batch body (`chain = '1'` is a
destructuring default). -/
structure TracesOp where
  action : Option String
  chain : Option String
  blockNumber : Option String
  txHash : Option String
deriving DecidableEq

/-- One entry of the traces batch results array. -/
structure TracesEntry (β : Type) where
  success : Bool
  action : Option String
  chain : String
  blockNumber : Option String
  txHash : Option String
  data : Option β
  error : Option String
deriving DecidableEq

/-- The `try` block of one traces batch iteration. -/
def tracesItemCore (apiKey : Option String) (fetch : FetchCall → FetchOutcome β)
    (op : TracesOp) : Except String β :=
  let chain := op.chain.getD "1"
  if op.action = some "syncedInterval" then
    makeRequest fetch apiKey (TRACES_BASE ++ "/" ++ chain ++ "/synced-interval")
  else if op.action = some "blockTrace" then
    if jsTruthy op.blockNumber = false then .error "blockNumber is required for blockTrace"
    else makeRequest fetch apiKey (TRACES_BASE ++ "/" ++ chain ++ "/block-trace/" ++ op.blockNumber.getD "")
  else if op.action = some "txTrace" then
    if jsTruthy op.blockNumber = false ∨ jsTruthy op.txHash = false then
      .error "blockNumber and txHash are required for txTrace"
    else
      makeRequest fetch apiKey
        (TRACES_BASE ++ "/" ++ chain ++ "/block-trace/" ++ op.blockNumber.getD "" ++
          "/tx-hash/" ++ op.txHash.getD "")
  else .error ("Invalid action: " ++ jsShow op.action)

/-- One traces batch iteration including the `catch`. -/
def tracesItem (apiKey : Option String) (fetch : FetchCall → FetchOutcome β)
    (op : TracesOp) : TracesEntry β :=
  match tracesItemCore apiKey fetch op with
  | .ok b => ⟨true, op.action, op.chain.getD "1", op.blockNumber, op.txHash, some b, none⟩
  | .error e => ⟨false, op.action, op.chain.getD "1", op.blockNumber, op.txHash, none, some e⟩

/-- The traces batch `POST` handler. -/
def tracesPOST (apiKey : Option String) (fetch : FetchCall → FetchOutcome β)
    (operations : Option (List TracesOp)) : BatchResp (TracesEntry β) :=
  match operations with
  | none => .badRequest "Operations array is required"
  | some items =>
    let results := batchLoop (tracesItem apiKey fetch) items
    .okResp true results items.length
      (results.filter (fun r => r.success)).length
      (results.filter (fun r => !r.success)).length

/-! ## Domains route (`src/unnamed/part_009`) -/

def DOMAINS_BASE : String := "https://api.1inch.dev/domains/v2.0"

/-- Success payload of the domains `GET` route: `domain`/`address` are
spread into the response only when truthy. -/
structure DomainsPayload (β : Type) where
  success : Bool
  action : String
  domain : Option String
  address : Option String
  data : β
deriving DecidableEq

/-- `...(x && { x })`: keep the field only when the value is truthy. -/
def spreadIfTruthy (o : Option String) : Option String :=
  if jsTruthy o then o else none

/-- The domains `GET` handler. -/
def domainsGET (apiKey : Option String) (fetch : FetchCall → FetchOutcome β)
    (action0 domain0 address0 : Option String) : RouteResult (DomainsPayload β) :=
  if jsTruthy action0 = false then
    ⟨400, .err "Action parameter is required. Use: lookup, reverseLookup, or providersData" none, []⟩
  else
    let action := action0.getD ""
    if action = "lookup" then
      if jsTruthy domain0 = false then
        ⟨400, .err "Domain parameter is required for lookup action" none, []⟩
      else
        let domain := domain0.getD ""
        if jsIncludes domain '.' = false then
          ⟨400, .err "Invalid domain format" none, []⟩
        else
          let url := DOMAINS_BASE ++ "/" ++ domain ++ "/lookup"
          match makeRequest fetch apiKey url with
          | .ok b =>
            ⟨200, .payload ⟨true, action, spreadIfTruthy domain0, spreadIfTruthy address0, b⟩,
             [fetchCallOf apiKey url]⟩
          | .error e => ⟨500, .err "Failed to fetch domain data" (some e), [fetchCallOf apiKey url]⟩
    else if action = "reverseLookup" then
      if jsTruthy address0 = false then
        ⟨400, .err "Address parameter is required for reverseLookup action" none, []⟩
      else
        let address := address0.getD ""
        if isHexAddress address = false then
          ⟨400, .err "Invalid wallet address format" none, []⟩
        else
          let url := DOMAINS_BASE ++ "/" ++ address ++ "/reverse-lookup"
          match makeRequest fetch apiKey url with
          | .ok b =>
            ⟨200, .payload ⟨true, action, spreadIfTruthy domain0, spreadIfTruthy address0, b⟩,
             [fetchCallOf apiKey url]⟩
          | .error e => ⟨500, .err "Failed to fetch domain data" (some e), [fetchCallOf apiKey url]⟩
    else if action = "providersData" then
      let url := DOMAINS_BASE ++ "/get-providers-data-with-avatar"
      match makeRequest fetch apiKey url with
      | .ok b =>
        ⟨200, .payload ⟨true, action, spreadIfTruthy domain0, spreadIfTruthy address0, b⟩,
         [fetchCallOf apiKey url]⟩
      | .error e => ⟨500, .err "Failed to fetch domain data" (some e), [fetchCallOf apiKey url]⟩
    else
      ⟨400, .err "Invalid action. Use: lookup, reverseLookup, or providersData" none, []⟩

/-- One operation of the domains batch body. -/
structure DomainsOp where
  action : Option String
  domain : Option String
  address : Option String
deriving DecidableEq

/-- One entry of the domains batch results array. -/
structure DomainsEntry (β : Type) where
  success : Bool
  action : Option String
  domain : Option String
  address : Option String
  data : Option β
  error : Option String
deriving DecidableEq

/-- The `try` block of one domains batch iteration. -/
def domainsItemCore (apiKey : Option String) (fetch : FetchCall → FetchOutcome β)
    (op : DomainsOp) : Except String β :=
  if op.action = some "lookup" then
    if jsTruthy op.domain = false then .error "Domain is required for lookup action"
    else if jsIncludes (op.domain.getD "") '.' = false then .error "Invalid domain format"
    else makeRequest fetch apiKey (DOMAINS_BASE ++ "/" ++ op.domain.getD "" ++ "/lookup")
  else if op.action = some "reverseLookup" then
    if jsTruthy op.address = false then .error "Address is required for reverseLookup action"
    else if isHexAddress (op.address.getD "") = false then .error "Invalid wallet address format"
    else makeRequest fetch apiKey (DOMAINS_BASE ++ "/" ++ op.address.getD "" ++ "/reverse-lookup")
  else if op.action = some "providersData" then
    makeRequest fetch apiKey (DOMAINS_BASE ++ "/get-providers-data-with-avatar")
  else .error ("Invalid action: " ++ jsShow op.action)

/-- One domains batch iteration including the `catch`. -/
def domainsItem (apiKey : Option String) (fetch : FetchCall → FetchOutcome β)
    (op : DomainsOp) : DomainsEntry β :=
  match domainsItemCore apiKey fetch op with
  | .ok b => ⟨true, op.action, spreadIfTruthy op.domain, spreadIfTruthy op.address, some b, none⟩
  | .error e => ⟨false, op.action, spreadIfTruthy op.domain, spreadIfTruthy op.address, none, some e⟩

/-- The domains batch `POST` handler. -/
def domainsPOST (apiKey : Option String) (fetch : FetchCall → FetchOutcome β)
    (operations : Option (List DomainsOp)) : BatchResp (DomainsEntry β) :=
  match operations with
  | none => .badRequest "Operations array is required"
  | some items =>
    let results := batchLoop (domainsItem apiKey fetch) items
    .okResp true results items.length
      (results.filter (fun r => r.success)).length
      (results.filter (fun r => !r.success)).length

/-! ## Tokens route (`src/unnamed/part_007`)

`encodeURIComponent` is a JavaScript builtin; like `fetch` it is
abstracted as an oracle argument `encU`. -/

def TOKEN_BASE : String := "https://api.1inch.dev/token"

/-- `SUPPORTED_CHAINS` of the token route. -/
def tokenChains (c : String) : Option String :=
  if c = "ethereum" then some "1"
  else if c = "bsc" then some "56"
  else if c = "polygon" then some "137"
  else if c = "optimism" then some "10"
  else if c = "arbitrum" then some "42161"
  else if c = "gnosis" then some "100"
  else if c = "avalanche" then some "43114"
  else if c = "fantom" then some "250"
  else if c = "klaytn" then some "8217"
  else if c = "aurora" then some "1313161554"
  else none

/-- Success payload of the tokens `GET` route (`query`, `addresses` and
`provider` echo fields elided). -/
structure TokensPayload (β : Type) where
  success : Bool
  action : String
  chainId : String
  chain : String
  data : β
deriving DecidableEq

/-- The tokens `GET` handler (`action` defaults to `'all'`). -/
def tokensGET (apiKey : Option String) (fetch : FetchCall → FetchOutcome β)
    (encU : String → String)
    (action0 chain0 query0 addresses0 limit0 ignoreListed0 provider0 chainId0 : Option String) :
    RouteResult (TokensPayload β) :=
  let action := jsOrS action0 "all"
  let chain := jsOrS chain0 "ethereum"
  let limit := jsOrS limit0 "10"
  let ignoreListed := jsOrS ignoreListed0 "false"
  let provider := jsOrS provider0 "1inch"
  let chainId := jsOrS chainId0 (jsOrS (tokenChains chain) "1")
  if action = "search" then
    if jsTruthy query0 = false then
      ⟨400, .err "Query parameter is required for search action" none, []⟩
    else
      let url := TOKEN_BASE ++ "/v1.2/" ++ chainId ++ "/search?query=" ++ encU (query0.getD "") ++
                   "&limit=" ++ limit ++ "&ignore_listed=" ++ ignoreListed
      match makeRequest fetch apiKey url with
      | .ok b => ⟨200, .payload ⟨true, action, chainId, chain, b⟩, [fetchCallOf apiKey url]⟩
      | .error e => ⟨500, .err "Failed to fetch token data" (some e), [fetchCallOf apiKey url]⟩
  else if action = "custom" then
    if jsTruthy addresses0 = false then
      ⟨400, .err "Addresses parameter is required for custom action" none, []⟩
    else if validAddrList (addresses0.getD "") = false then
      ⟨400, .err "Invalid token address format" none, []⟩
    else
      let url := TOKEN_BASE ++ "/v1.2/" ++ chainId ++ "/custom/" ++ addresses0.getD ""
      match makeRequest fetch apiKey url with
      | .ok b => ⟨200, .payload ⟨true, action, chainId, chain, b⟩, [fetchCallOf apiKey url]⟩
      | .error e => ⟨500, .err "Failed to fetch token data" (some e), [fetchCallOf apiKey url]⟩
  else if action = "all" then
    let url := TOKEN_BASE ++ "/v1.2/" ++ chainId ++ "?provider=" ++ provider
    match makeRequest fetch apiKey url with
    | .ok b => ⟨200, .payload ⟨true, action, chainId, chain, b⟩, [fetchCallOf apiKey url]⟩
    | .error e => ⟨500, .err "Failed to fetch token data" (some e), [fetchCallOf apiKey url]⟩
  else if action = "tokenList" then
    let url := TOKEN_BASE ++ "/v1.2/" ++ chainId ++ "/token-list?provider=" ++ provider
    match makeRequest fetch apiKey url with
    | .ok b => ⟨200, .payload ⟨true, action, chainId, chain, b⟩, [fetchCallOf apiKey url]⟩
    | .error e => ⟨500, .err "Failed to fetch token data" (some e), [fetchCallOf apiKey url]⟩
  else
    ⟨400, .err "Invalid action. Use: search, custom, all, or tokenList" none, []⟩

/-- One operation of the tokens batch body (`limit = '10'`,
`ignoreListed = 'false'`, `provider = '1inch'` are destructuring
defaults). -/
structure TokensOp where
  action : Option String
  chain : Option String
  chainId : Option String
  query : Option String
  addresses : Option String
  limit : Option String
  ignoreListed : Option String
  provider : Option String
deriving DecidableEq

/-- One entry of the tokens batch results array (echo fields elided). -/
structure TokensEntry (β : Type) where
  success : Bool
  action : Option String
  chainId : String
  chain : String
  data : Option β
  error : Option String
deriving DecidableEq

/-- The `try` block of one tokens batch iteration. -/
def tokensItemCore (apiKey : Option String) (fetch : FetchCall → FetchOutcome β)
    (encU : String → String) (op : TokensOp) : Except String β :=
  let limit := op.limit.getD "10"
  let ignoreListed := op.ignoreListed.getD "false"
  let provider := op.provider.getD "1inch"
  let finalChainId := jsOrS op.chainId (jsOrS (op.chain.bind tokenChains) "1")
  if op.action = some "search" then
    if jsTruthy op.query = false then .error "Query is required for search action"
    else
      makeRequest fetch apiKey
        (TOKEN_BASE ++ "/v1.2/" ++ finalChainId ++ "/search?query=" ++ encU (op.query.getD "") ++
          "&limit=" ++ limit ++ "&ignore_listed=" ++ ignoreListed)
  else if op.action = some "custom" then
    if jsTruthy op.addresses = false then .error "Addresses are required for custom action"
    else if validAddrList (op.addresses.getD "") = false then .error "Invalid token address format"
    else makeRequest fetch apiKey (TOKEN_BASE ++ "/v1.2/" ++ finalChainId ++ "/custom/" ++ op.addresses.getD "")
  else if op.action = some "all" then
    makeRequest fetch apiKey (TOKEN_BASE ++ "/v1.2/" ++ finalChainId ++ "?provider=" ++ provider)
  else if op.action = some "tokenList" then
    makeRequest fetch apiKey (TOKEN_BASE ++ "/v1.2/" ++ finalChainId ++ "/token-list?provider=" ++ provider)
  else .error ("Invalid action: " ++ jsShow op.action)

/-- One tokens batch iteration including the `catch`. -/
def tokensItem (apiKey : Option String) (fetch : FetchCall → FetchOutcome β)
    (encU : String → String) (op : TokensOp) : TokensEntry β :=
  match tokensItemCore apiKey fetch encU op with
  | .ok b =>
    ⟨true, op.action, jsOrS op.chainId (jsOrS (op.chain.bind tokenChains) "1"),
     jsOrS op.chain "ethereum", some b, none⟩
  | .error e => ⟨false, op.action, jsOrS op.chainId "1", jsOrS op.chain "ethereum", none, some e⟩

/-- The tokens batch `POST` handler. -/
def tokensPOST (apiKey : Option String) (fetch : FetchCall → FetchOutcome β)
    (encU : String → String) (operations : Option (List TokensOp)) :
    BatchResp (TokensEntry β) :=
  match operations with
  | none => .badRequest "Operations array is required"
  | some items =>
    let results := batchLoop (tokensItem apiKey fetch encU) items
    .okResp true results items.length
      (results.filter (fun r => r.success)).length
      (results.filter (fun r => !r.success)).length

/-! ## Spot-price route (`src/unnamed/part_006`)

The `formatPriceFromWei` conversion is
`(parseInt(priceWei) / 1e18).toFixed(6)`: IEEE-754 double-precision
arithmetic, which this development does not model; the payload keeps the
raw upstream price map only. -/

def SPOT_BASE : String := "https://api.1inch.dev/price/v1.1"

/-- `SUPPORTED_CHAINS` of the spot-price route. -/
def spotChains (c : String) : Option String :=
  if c = "ethereum" then some "1"
  else if c = "bsc" then some "56"
  else if c = "polygon" then some "137"
  else if c = "optimism" then some "10"
  else if c = "arbitrum" then some "42161"
  else if c = "gnosis" then some "100"
  else if c = "avalanche" then some "43114"
  else if c = "fantom" then some "250"
  else none

/-- Success payload of the spot-price `GET` route (`formattedPrices`
elided, see the section comment). -/
structure SpotPayload (β : Type) where
  success : Bool
  action : String
  chainId : String
  chain : String
  data : β
deriving DecidableEq

/-- The spot-price `GET` handler (`action` defaults to `'whitelisted'`). -/
def spotpriceGET (apiKey : Option String) (fetch : FetchCall → FetchOutcome β)
    (action0 chain0 addresses0 chainId0 : Option String) :
    RouteResult (SpotPayload β) :=
  let action := jsOrS action0 "whitelisted"
  let chain := jsOrS chain0 "ethereum"
  let chainId := jsOrS chainId0 (jsOrS (spotChains chain) "1")
  if action = "whitelisted" then
    let url := SPOT_BASE ++ "/" ++ chainId
    match makeRequest fetch apiKey url with
    | .ok b => ⟨200, .payload ⟨true, action, chainId, chain, b⟩, [fetchCallOf apiKey url]⟩
    | .error e => ⟨500, .err "Failed to fetch spot prices" (some e), [fetchCallOf apiKey url]⟩
  else if action = "addresses" then
    if jsTruthy addresses0 = false then
      ⟨400, .err "Addresses parameter is required for addresses action" none, []⟩
    else if validAddrList (addresses0.getD "") = false then
      ⟨400, .err "Invalid token address format" none, []⟩
    else
      let url := SPOT_BASE ++ "/" ++ chainId ++ "/" ++ addresses0.getD ""
      match makeRequest fetch apiKey url with
      | .ok b => ⟨200, .payload ⟨true, action, chainId, chain, b⟩, [fetchCallOf apiKey url]⟩
      | .error e => ⟨500, .err "Failed to fetch spot prices" (some e), [fetchCallOf apiKey url]⟩
  else
    ⟨400, .err "Invalid action. Use: whitelisted or addresses" none, []⟩

/-! ## Wallet-connect provider (`src/frontend/src/components/provider.tsx`) -/

/-- The wagmi configuration built at module load (chains list elided). -/
structure WagmiConfig where
  appName : String
  projectId : String
deriving DecidableEq

/-- Module-load initialization of `provider.tsx`:
`if (!WALLETCONNECT_ID) throw new Error("Please enter the project id in .env.local")`,
then `getDefaultConfig({appName: "Cardano 1inch Fusion+", projectId: WALLETCONNECT_ID, ...})`. -/
def walletconnectInit (projectId0 : Option String) : Except String WagmiConfig :=
  match projectId0 with
  | none => .error "Please enter the project id in .env.local"
  | some pid =>
    if pid = "" then .error "Please enter the project id in .env.local"
    else .ok ⟨"Cardano 1inch Fusion+", pid⟩

/-! ## Helper lemmas -/

theorem batchLoop_eq_map (f : α → ε) (l : List α) : batchLoop f l = l.map f := by
  induction l with
  | nil => rfl
  | cons x xs ih => simp [batchLoop, ih]

theorem filter_length_add_filter_not_length (p : ε → Bool) (l : List ε) :
    (l.filter p).length + (l.filter (fun x => !p x)).length = l.length := by
  induction l with
  | nil => rfl
  | cons x xs ih =>
    cases hx : p x <;> simp [List.filter_cons, hx] <;> omega

/-! ## Claim theorems -/

/-- C1 (counterexample): the claim says every route handler that accepts a
wallet address rejects a non-`^0x[a-fA-F0-9]{40}$` address with 400 before
any upstream request is made, "in particular … the wallet-history GET
handler".  But the wallet-history handler only checks presence: for the
malformed address "0xZZ" it answers 200 and issues an upstream request. -/
theorem C1_counterexample :
    isHexAddress "0xZZ" = false ∧
    (historyGET (β := Unit) (some "k") (fun _ => .ok ()) (some "0xZZ") none none none).status = 200 ∧
    (historyGET (β := Unit) (some "k") (fun _ => .ok ()) (some "0xZZ") none none none).fetched ≠ [] := by
  refine ⟨by decide, rfl, by decide⟩

/-- C1 (amended): route handlers that validate the wallet address format —
the NFT GET handler and the domains reverseLookup action — reject an
address failing `^0x[a-fA-F0-9]{40}$` with status 400 and an error message
before any upstream request is made; the wallet-history GET handler,
however, only rejects a missing/empty address and otherwise constructs and
fetches the upstream URL without validating the format. -/
theorem C1_address_validation (apiKey : Option String) (a : String)
    (hval : isHexAddress a = false) (hne : a ≠ "") :
    (∀ (α : Type) (fetch : FetchCall → FetchOutcome (NftBody α)) (chainIds0 limit0 offset0 : Option String),
       (nftGET apiKey fetch (some a) chainIds0 limit0 offset0).status = 400 ∧
       (nftGET apiKey fetch (some a) chainIds0 limit0 offset0).body =
         .err "Invalid wallet address format" none ∧
       (nftGET apiKey fetch (some a) chainIds0 limit0 offset0).fetched = []) ∧
    (∀ (β : Type) (fetch : FetchCall → FetchOutcome β),
       (domainsGET apiKey fetch (some "reverseLookup") none (some a)).status = 400 ∧
       (domainsGET apiKey fetch (some "reverseLookup") none (some a)).body =
         .err "Invalid wallet address format" none ∧
       (domainsGET apiKey fetch (some "reverseLookup") none (some a)).fetched = []) ∧
    (∀ (β : Type) (fetch : FetchCall → FetchOutcome β) (limit0 chain0 chainId0 : Option String),
       (historyGET apiKey fetch (some a) limit0 chain0 chainId0).fetched =
         [fetchCallOf apiKey (HISTORY_BASE ++ "/" ++ a ++ "/events?chainId=1&limit=" ++ jsOrS limit0 "10")]) := by
  refine ⟨?_, ?_, ?_⟩
  · intro α fetch chainIds0 limit0 offset0
    simp [nftGET, hne, hval]
  · intro β fetch
    simp [domainsGET, jsTruthy, hne, hval]
  · intro β fetch limit0 chain0 chainId0
    simp only [historyGET, hne, if_false]
    split
    · rfl
    · split
      · rfl
      · split <;> rfl

/-- Witness for `C1_address_validation` at the concrete malformed address
"0xZZ". -/
theorem C1_address_validation_witness :
    isHexAddress "0xZZ" = false ∧
    (nftGET (α := Unit) (some "k") (fun _ => .ok ⟨none⟩) (some "0xZZ") none none none).status = 400 ∧
    (domainsGET (β := Unit) (some "k") (fun _ => .ok ()) (some "reverseLookup") none (some "0xZZ")).status = 400 ∧
    (historyGET (β := Unit) (some "k") (fun _ => .ok ()) (some "0xZZ") none none none).fetched =
      [fetchCallOf (some "k") (HISTORY_BASE ++ "/" ++ "0xZZ" ++ "/events?chainId=1&limit=" ++ jsOrS none "10")] := by
  have h := C1_address_validation (some "k") "0xZZ" (by decide) (by decide)
  exact ⟨by decide, (h.1 Unit (fun _ => .ok ⟨none⟩) none none none).1,
    (h.2.1 Unit (fun _ => .ok ())).1, h.2.2 Unit (fun _ => .ok ()) none none none⟩

/-- C2 (code evaluation): the wallet-history handler reads `chainId` from
the query string and echoes it in its response body, but the constructed
upstream URL interpolates the literal `1` (`` `chainId=${1}` ``): with
`chainId=137` the handler fetches `…events?chainId=1&limit=10` while
answering `chainId: "137"`, and that URL differs from the one the claim
specifies. -/
theorem C2_url_ignores_client_chainId :
    (historyGET (β := Unit) (some "k") (fun _ => .ok ())
        (some "0x1111111111111111111111111111111111111111") none none (some "137")).fetched =
      [fetchCallOf (some "k")
        (HISTORY_BASE ++ "/" ++ "0x1111111111111111111111111111111111111111" ++
          "/events?chainId=1&limit=" ++ "10")] ∧
    (historyGET (β := Unit) (some "k") (fun _ => .ok ())
        (some "0x1111111111111111111111111111111111111111") none none (some "137")).body =
      .payload ⟨true, "0x1111111111111111111111111111111111111111", "ethereum", "137", ()⟩ ∧
    (HISTORY_BASE ++ "/" ++ "0x1111111111111111111111111111111111111111" ++
        "/events?chainId=1&limit=" ++ "10") ≠
      (HISTORY_BASE ++ "/" ++ "0x1111111111111111111111111111111111111111" ++
        "/events?chainId=" ++ "137" ++ "&limit=" ++ "10") := by
  refine ⟨by decide, by decide, by decide⟩

/-- C5 (counterexample): the claim says the absence of the 1inch API key
is a fatal configuration error, but no handler checks it: with the key
absent the gas-price GET handler proceeds, sends
`Authorization: Bearer undefined` upstream, and answers 200. -/
theorem C5_counterexample :
    (gaspriceGET (β := Unit) none (fun _ => .ok ()) none none).status = 200 ∧
    (gaspriceGET (β := Unit) none (fun _ => .ok ()) none none).fetched =
      [⟨GAS_BASE ++ "/1", "Bearer undefined"⟩] := by
  refine ⟨rfl, by decide⟩

/-- C5 (amended): the WalletConnect project id is required — module load
of the provider throws a configuration error when it is absent or empty —
but the 1inch API key is never validated: request handling proceeds
without it and every upstream request then carries
`Authorization: Bearer undefined`. -/
theorem C5_env_config (pid : Option String) (hpid : jsTruthy pid = false) :
    walletconnectInit pid = .error "Please enter the project id in .env.local" ∧
    authHeader none = "Bearer undefined" ∧
    (∀ (β : Type) (fetch : FetchCall → FetchOutcome β) (chain0 chainId0 : Option String),
       ((gaspriceGET (β := β) none fetch chain0 chainId0).fetched.all
         (fun c => c.auth == "Bearer undefined")) = true) := by
  refine ⟨?_, rfl, ?_⟩
  · cases pid with
    | none => rfl
    | some s =>
      simp [jsTruthy] at hpid
      simp [walletconnectInit, hpid]
  · intro β fetch chain0 chainId0
    simp only [gaspriceGET]
    split <;> simp [fetchCallOf, authHeader]

/-- Witness for `C5_env_config` with the project id absent. -/
theorem C5_env_config_witness :
    walletconnectInit none = .error "Please enter the project id in .env.local" ∧
    ((gaspriceGET (β := Unit) none (fun _ => .ok ()) none none).fetched.all
      (fun c => c.auth == "Bearer undefined")) = true := by
  have h := C5_env_config none (by decide)
  exact ⟨h.1, h.2.2 Unit (fun _ => .ok ()) none none⟩

/-- C4: when the upstream fetch returns a non-success status, every
single-request route handler responds 500 with a details field wrapping
the upstream failure message — proved for the gas-price GET handler, the
NFT GET handler, the portfolio GET handler (all four actions), the tokens
GET handler (all four actions), the traces GET handler (all three
actions), the domains GET handler (all three actions) and the spot-price
GET handler (both actions) — while the wallet-history GET handler
special-cases upstream 401 as 401 "Invalid API key" and upstream 429 as
429 "Rate limit exceeded", and otherwise responds 500 with wrapped
details. -/
theorem C4_upstream_failure (apiKey : Option String) (s : Nat) (t e : String) :
    (∀ (β : Type) (chain0 chainId0 : Option String),
       (gaspriceGET (β := β) apiKey (fun _ => .httpError s t e) chain0 chainId0).status = 500 ∧
       (gaspriceGET (β := β) apiKey (fun _ => .httpError s t e) chain0 chainId0).body =
         .err "Failed to fetch gas prices" (some (apiFailMsg s t e))) ∧
    (∀ (α : Type) (a : String) (chainIds0 limit0 offset0 : Option String) (n m : Int),
       isHexAddress a = true →
       jsParseInt (jsOrS limit0 "50") = some n → 1 ≤ n → n ≤ 100 →
       jsParseInt (jsOrS offset0 "0") = some m → 0 ≤ m →
       (nftGET (α := α) apiKey (fun _ => .httpError s t e) (some a) chainIds0 limit0 offset0).status = 500 ∧
       (nftGET (α := α) apiKey (fun _ => .httpError s t e) (some a) chainIds0 limit0 offset0).body =
         .err "Failed to fetch NFT data" (some (apiFailMsg s t e))) ∧
    (∀ (β : Type) (addrs : String) (chainId0 fromTs0 toTs0 : Option String),
       addrs ≠ "" → validAddrList addrs = true →
       ((portfolioGET (β := β) apiKey (fun _ => .httpError s t e) (some "currentValue") (some addrs) chainId0 fromTs0 toTs0).status = 500 ∧
        (portfolioGET (β := β) apiKey (fun _ => .httpError s t e) (some "currentValue") (some addrs) chainId0 fromTs0 toTs0).body =
          .err "Failed to fetch portfolio data" (some (apiFailMsg s t e))) ∧
       ((portfolioGET (β := β) apiKey (fun _ => .httpError s t e) (some "tokenDetails") (some addrs) chainId0 fromTs0 toTs0).status = 500 ∧
        (portfolioGET (β := β) apiKey (fun _ => .httpError s t e) (some "tokenDetails") (some addrs) chainId0 fromTs0 toTs0).body =
          .err "Failed to fetch portfolio data" (some (apiFailMsg s t e))) ∧
       (jsTruthy fromTs0 = true → jsTruthy toTs0 = true →
        (portfolioGET (β := β) apiKey (fun _ => .httpError s t e) (some "profitAndLoss") (some addrs) chainId0 fromTs0 toTs0).status = 500 ∧
        (portfolioGET (β := β) apiKey (fun _ => .httpError s t e) (some "profitAndLoss") (some addrs) chainId0 fromTs0 toTs0).body =
          .err "Failed to fetch portfolio data" (some (apiFailMsg s t e))) ∧
       ((portfolioGET (β := β) apiKey (fun _ => .httpError s t e) (some "all") (some addrs) chainId0 fromTs0 toTs0).status = 500 ∧
        (portfolioGET (β := β) apiKey (fun _ => .httpError s t e) (some "all") (some addrs) chainId0 fromTs0 toTs0).body =
          .err "Failed to fetch portfolio data" (some (apiFailMsg s t e)))) ∧
    (∀ (β : Type) (encU : String → String) (chain0 query0 addresses0 limit0 ignoreListed0 provider0 chainId0 : Option String),
       (∀ q : String, q ≠ "" →
          (tokensGET (β := β) apiKey (fun _ => .httpError s t e) encU (some "search") chain0 (some q) addresses0 limit0 ignoreListed0 provider0 chainId0).status = 500 ∧
          (tokensGET (β := β) apiKey (fun _ => .httpError s t e) encU (some "search") chain0 (some q) addresses0 limit0 ignoreListed0 provider0 chainId0).body =
            .err "Failed to fetch token data" (some (apiFailMsg s t e))) ∧
       (∀ addrs : String, addrs ≠ "" → validAddrList addrs = true →
          (tokensGET (β := β) apiKey (fun _ => .httpError s t e) encU (some "custom") chain0 query0 (some addrs) limit0 ignoreListed0 provider0 chainId0).status = 500 ∧
          (tokensGET (β := β) apiKey (fun _ => .httpError s t e) encU (some "custom") chain0 query0 (some addrs) limit0 ignoreListed0 provider0 chainId0).body =
            .err "Failed to fetch token data" (some (apiFailMsg s t e))) ∧
       ((tokensGET (β := β) apiKey (fun _ => .httpError s t e) encU (some "all") chain0 query0 addresses0 limit0 ignoreListed0 provider0 chainId0).status = 500 ∧
        (tokensGET (β := β) apiKey (fun _ => .httpError s t e) encU (some "all") chain0 query0 addresses0 limit0 ignoreListed0 provider0 chainId0).body =
          .err "Failed to fetch token data" (some (apiFailMsg s t e))) ∧
       ((tokensGET (β := β) apiKey (fun _ => .httpError s t e) encU (some "tokenList") chain0 query0 addresses0 limit0 ignoreListed0 provider0 chainId0).status = 500 ∧
        (tokensGET (β := β) apiKey (fun _ => .httpError s t e) encU (some "tokenList") chain0 query0 addresses0 limit0 ignoreListed0 provider0 chainId0).body =
          .err "Failed to fetch token data" (some (apiFailMsg s t e)))) ∧
    (∀ (β : Type) (chain0 bn0 tx0 : Option String),
       ((tracesGET (β := β) apiKey (fun _ => .httpError s t e) (some "syncedInterval") chain0 bn0 tx0).status = 500 ∧
        (tracesGET (β := β) apiKey (fun _ => .httpError s t e) (some "syncedInterval") chain0 bn0 tx0).body =
          .err "Failed to fetch trace data" (some (apiFailMsg s t e))) ∧
       (jsTruthy bn0 = true →
        (tracesGET (β := β) apiKey (fun _ => .httpError s t e) (some "blockTrace") chain0 bn0 tx0).status = 500 ∧
        (tracesGET (β := β) apiKey (fun _ => .httpError s t e) (some "blockTrace") chain0 bn0 tx0).body =
          .err "Failed to fetch trace data" (some (apiFailMsg s t e))) ∧
       (jsTruthy bn0 = true → jsTruthy tx0 = true →
        (tracesGET (β := β) apiKey (fun _ => .httpError s t e) (some "txTrace") chain0 bn0 tx0).status = 500 ∧
        (tracesGET (β := β) apiKey (fun _ => .httpError s t e) (some "txTrace") chain0 bn0 tx0).body =
          .err "Failed to fetch trace data" (some (apiFailMsg s t e)))) ∧
    (∀ (β : Type) (domain0 address0 : Option String),
       (∀ d : String, d ≠ "" → jsIncludes d '.' = true →
          (domainsGET (β := β) apiKey (fun _ => .httpError s t e) (some "lookup") (some d) address0).status = 500 ∧
          (domainsGET (β := β) apiKey (fun _ => .httpError s t e) (some "lookup") (some d) address0).body =
            .err "Failed to fetch domain data" (some (apiFailMsg s t e))) ∧
       (∀ a : String, isHexAddress a = true →
          (domainsGET (β := β) apiKey (fun _ => .httpError s t e) (some "reverseLookup") domain0 (some a)).status = 500 ∧
          (domainsGET (β := β) apiKey (fun _ => .httpError s t e) (some "reverseLookup") domain0 (some a)).body =
            .err "Failed to fetch domain data" (some (apiFailMsg s t e))) ∧
       ((domainsGET (β := β) apiKey (fun _ => .httpError s t e) (some "providersData") domain0 address0).status = 500 ∧
        (domainsGET (β := β) apiKey (fun _ => .httpError s t e) (some "providersData") domain0 address0).body =
          .err "Failed to fetch domain data" (some (apiFailMsg s t e)))) ∧
    (∀ (β : Type) (chain0 chainId0 addresses0 : Option String),
       ((spotpriceGET (β := β) apiKey (fun _ => .httpError s t e) (some "whitelisted") chain0 addresses0 chainId0).status = 500 ∧
        (spotpriceGET (β := β) apiKey (fun _ => .httpError s t e) (some "whitelisted") chain0 addresses0 chainId0).body =
          .err "Failed to fetch spot prices" (some (apiFailMsg s t e))) ∧
       (∀ addrs : String, addrs ≠ "" → validAddrList addrs = true →
          (spotpriceGET (β := β) apiKey (fun _ => .httpError s t e) (some "addresses") chain0 (some addrs) chainId0).status = 500 ∧
          (spotpriceGET (β := β) apiKey (fun _ => .httpError s t e) (some "addresses") chain0 (some addrs) chainId0).body =
            .err "Failed to fetch spot prices" (some (apiFailMsg s t e)))) ∧
    (∀ (β : Type) (a : String), a ≠ "" → ∀ (limit0 chain0 chainId0 : Option String),
       (s = 401 →
          (historyGET (β := β) apiKey (fun _ => .httpError s t e) (some a) limit0 chain0 chainId0).status = 401 ∧
          (historyGET (β := β) apiKey (fun _ => .httpError s t e) (some a) limit0 chain0 chainId0).body =
            .err "Invalid API key" none) ∧
       (s = 429 →
          (historyGET (β := β) apiKey (fun _ => .httpError s t e) (some a) limit0 chain0 chainId0).status = 429 ∧
          (historyGET (β := β) apiKey (fun _ => .httpError s t e) (some a) limit0 chain0 chainId0).body =
            .err "Rate limit exceeded" none) ∧
       (s ≠ 401 → s ≠ 429 →
          (historyGET (β := β) apiKey (fun _ => .httpError s t e) (some a) limit0 chain0 chainId0).status = 500 ∧
          (historyGET (β := β) apiKey (fun _ => .httpError s t e) (some a) limit0 chain0 chainId0).body =
            .err "Failed to fetch wallet transactions"
              (some ("1inch API error: " ++ toString s ++ " " ++ t)))) := by
  refine ⟨?_, ?_, ?_, ?_, ?_, ?_, ?_, ?_⟩
  · intro β chain0 chainId0
    simp [gaspriceGET, makeRequest]
  · intro α a chainIds0 limit0 offset0 n m ha hl h1 h2 ho hm
    have hne : a ≠ "" := by
      intro h
      rw [h] at ha
      exact absurd ha (by decide)
    have hrange : ¬ (n < 1 ∨ 100 < n) := by omega
    have hm' : ¬ (m < 0) := by omega
    simp [nftGET, hne, ha, hl, hrange, ho, hm', makeRequest]
  · intro β addrs chainId0 fromTs0 toTs0 hne hvalid
    refine ⟨?_, ?_, ?_, ?_⟩
    · simp [portfolioGET, jsTruthy, hne, hvalid, makeRequest]
    · simp [portfolioGET, jsTruthy, hne, hvalid, makeRequest]
    · intro hf ht
      cases fromTs0 with
      | none => simp [jsTruthy] at hf
      | some f =>
        cases toTs0 with
        | none => simp [jsTruthy] at ht
        | some g =>
          simp only [jsTruthy, decide_eq_true_eq] at hf ht
          simp [portfolioGET, jsTruthy, hne, hvalid, hf, ht, makeRequest]
    · simp [portfolioGET, jsTruthy, hne, hvalid, makeRequest]
  · intro β encU chain0 query0 addresses0 limit0 ignoreListed0 provider0 chainId0
    refine ⟨?_, ?_, ?_, ?_⟩
    · intro q hq
      simp [tokensGET, jsOrS, jsTruthy, hq, makeRequest]
    · intro addrs hne hvalid
      simp [tokensGET, jsOrS, jsTruthy, hne, hvalid, makeRequest]
    · simp [tokensGET, jsOrS, makeRequest]
    · simp [tokensGET, jsOrS, makeRequest]
  · intro β chain0 bn0 tx0
    refine ⟨?_, ?_, ?_⟩
    · simp [tracesGET, jsTruthy, makeRequest]
    · intro hb
      cases bn0 with
      | none => simp [jsTruthy] at hb
      | some b =>
        simp only [jsTruthy, decide_eq_true_eq] at hb
        simp [tracesGET, jsTruthy, hb, makeRequest]
    · intro hb ht
      cases bn0 with
      | none => simp [jsTruthy] at hb
      | some b =>
        cases tx0 with
        | none => simp [jsTruthy] at ht
        | some x =>
          simp only [jsTruthy, decide_eq_true_eq] at hb ht
          simp [tracesGET, jsTruthy, hb, ht, makeRequest]
  · intro β domain0 address0
    refine ⟨?_, ?_, ?_⟩
    · intro d hd hdot
      simp [domainsGET, jsTruthy, hd, hdot, makeRequest]
    · intro a2 ha2
      have hane : a2 ≠ "" := by
        intro h
        rw [h] at ha2
        exact absurd ha2 (by decide)
      simp [domainsGET, jsTruthy, hane, ha2, makeRequest]
    · simp [domainsGET, jsTruthy, makeRequest]
  · intro β chain0 chainId0 addresses0
    refine ⟨?_, ?_⟩
    · simp [spotpriceGET, jsOrS, makeRequest]
    · intro addrs hne hvalid
      simp [spotpriceGET, jsOrS, jsTruthy, hne, hvalid, makeRequest]
  · intro β a ha limit0 chain0 chainId0
    refine ⟨?_, ?_, ?_⟩
    · intro h401
      subst h401
      simp [historyGET, ha]
    · intro h429
      subst h429
      simp [historyGET, ha]
    · intro h401 h429
      simp [historyGET, ha, h401, h429]

/-- Witness for `C4_upstream_failure`: each of the eight single-request
handlers at an upstream 500, and the wallet-history special cases at
upstream 401 and 429. -/
theorem C4_upstream_failure_witness :
    (gaspriceGET (β := Unit) (some "k") (fun _ => .httpError 500 "ISE" "boom") none none).status = 500 ∧
    (nftGET (α := Unit) (some "k") (fun _ => .httpError 500 "ISE" "boom")
        (some "0x1111111111111111111111111111111111111111") none none none).status = 500 ∧
    (portfolioGET (β := Unit) (some "k") (fun _ => .httpError 500 "ISE" "boom")
        (some "currentValue") (some "0x1111111111111111111111111111111111111111") none none none).status = 500 ∧
    (tokensGET (β := Unit) (some "k") (fun _ => .httpError 500 "ISE" "boom") id
        (some "all") none none none none none none none).status = 500 ∧
    (tracesGET (β := Unit) (some "k") (fun _ => .httpError 500 "ISE" "boom")
        (some "syncedInterval") none none none).status = 500 ∧
    (domainsGET (β := Unit) (some "k") (fun _ => .httpError 500 "ISE" "boom")
        (some "providersData") none none).status = 500 ∧
    (spotpriceGET (β := Unit) (some "k") (fun _ => .httpError 500 "ISE" "boom")
        (some "whitelisted") none none none).status = 500 ∧
    (historyGET (β := Unit) (some "k") (fun _ => .httpError 401 "Unauthorized" "x")
        (some "0x1111111111111111111111111111111111111111") none none none).status = 401 ∧
    (historyGET (β := Unit) (some "k") (fun _ => .httpError 429 "Too Many" "x")
        (some "0x1111111111111111111111111111111111111111") none none none).status = 429 ∧
    (historyGET (β := Unit) (some "k") (fun _ => .httpError 500 "ISE" "x")
        (some "0x1111111111111111111111111111111111111111") none none none).status = 500 := by
  have h5 := C4_upstream_failure (some "k") 500 "ISE" "boom"
  refine ⟨(h5.1 Unit none none).1, ?_, ?_, ?_, ?_, ?_, ?_, ?_, ?_, ?_⟩
  · exact (h5.2.1 Unit "0x1111111111111111111111111111111111111111" none none none 50 0
      (by decide) (by decide) (by decide) (by decide) (by decide) (by decide)).1
  · exact ((h5.2.2.1 Unit "0x1111111111111111111111111111111111111111" none none none
      (by decide) (by decide)).1).1
  · exact ((h5.2.2.2.1 Unit id none none none none none none none).2.2.1).1
  · exact ((h5.2.2.2.2.1 Unit none none none).1).1
  · exact ((h5.2.2.2.2.2.1 Unit none none).2.2).1
  · exact ((h5.2.2.2.2.2.2.1 Unit none none none).1).1
  · exact ((C4_upstream_failure (some "k") 401 "Unauthorized" "x").2.2.2.2.2.2.2 Unit
      "0x1111111111111111111111111111111111111111" (by decide) none none none).1 rfl |>.1
  · exact (((C4_upstream_failure (some "k") 429 "Too Many" "x").2.2.2.2.2.2.2 Unit
      "0x1111111111111111111111111111111111111111" (by decide) none none none).2.1 rfl).1
  · exact (((C4_upstream_failure (some "k") 500 "ISE" "x").2.2.2.2.2.2.2 Unit
      "0x1111111111111111111111111111111111111111" (by decide) none none none).2.2
      (by decide) (by decide)).1

/-- C3: every batch POST handler (gas price, NFT, portfolio, tokens,
traces, domains) maps input item i to results entry i — the results array
is the pointwise image of the input array, so it has exactly N entries in
input order and every remaining item is processed after a failure — and a
failing item is recorded in its own entry as success:false together with
an error string. -/
theorem C3_batch_order_isolation (apiKey : Option String) :
    (∀ (β : Type) (fetch : FetchCall → FetchOutcome β) (items : List ChainReq),
       (gaspricePOST apiKey fetch (some items)).resultsOf = items.map (gaspriceItem apiKey fetch) ∧
       ∀ c, (gaspriceItem apiKey fetch c).success = false → ((gaspriceItem apiKey fetch c).error).isSome) ∧
    (∀ (α : Type) (fetch : FetchCall → FetchOutcome (NftBody α)) (items : List NftReq),
       (nftPOST apiKey fetch (some items)).resultsOf = items.map (nftItem apiKey fetch) ∧
       ∀ c, (nftItem apiKey fetch c).success = false → ((nftItem apiKey fetch c).error).isSome) ∧
    (∀ (β : Type) (fetch : FetchCall → FetchOutcome β) (items : List PortfolioOp),
       (portfolioPOST apiKey fetch (some items)).resultsOf = items.map (portfolioItem apiKey fetch) ∧
       ∀ c, (portfolioItem apiKey fetch c).success = false → ((portfolioItem apiKey fetch c).error).isSome) ∧
    (∀ (β : Type) (fetch : FetchCall → FetchOutcome β) (encU : String → String) (items : List TokensOp),
       (tokensPOST apiKey fetch encU (some items)).resultsOf = items.map (tokensItem apiKey fetch encU) ∧
       ∀ c, (tokensItem apiKey fetch encU c).success = false → ((tokensItem apiKey fetch encU c).error).isSome) ∧
    (∀ (β : Type) (fetch : FetchCall → FetchOutcome β) (items : List TracesOp),
       (tracesPOST apiKey fetch (some items)).resultsOf = items.map (tracesItem apiKey fetch) ∧
       ∀ c, (tracesItem apiKey fetch c).success = false → ((tracesItem apiKey fetch c).error).isSome) ∧
    (∀ (β : Type) (fetch : FetchCall → FetchOutcome β) (items : List DomainsOp),
       (domainsPOST apiKey fetch (some items)).resultsOf = items.map (domainsItem apiKey fetch) ∧
       ∀ c, (domainsItem apiKey fetch c).success = false → ((domainsItem apiKey fetch c).error).isSome) := by
  refine ⟨?_, ?_, ?_, ?_, ?_, ?_⟩
  · intro β fetch items
    refine ⟨by simp [gaspricePOST, BatchResp.resultsOf, batchLoop_eq_map], ?_⟩
    intro c h
    unfold gaspriceItem at h ⊢
    cases hc : gaspriceItemCore apiKey fetch c with
    | ok v => simp [hc] at h
    | error e => simp [hc]
  · intro α fetch items
    refine ⟨by simp [nftPOST, BatchResp.resultsOf, batchLoop_eq_map], ?_⟩
    intro c h
    unfold nftItem at h ⊢
    cases hc : nftItemCore apiKey fetch c with
    | ok v => obtain ⟨a1, a2, a3⟩ := v; simp [hc] at h
    | error e => simp [hc]
  · intro β fetch items
    refine ⟨by simp [portfolioPOST, BatchResp.resultsOf, batchLoop_eq_map], ?_⟩
    intro c h
    unfold portfolioItem at h ⊢
    cases hc : portfolioItemCore apiKey fetch c with
    | ok v => simp [hc] at h
    | error e => simp [hc]
  · intro β fetch encU items
    refine ⟨by simp [tokensPOST, BatchResp.resultsOf, batchLoop_eq_map], ?_⟩
    intro c h
    unfold tokensItem at h ⊢
    cases hc : tokensItemCore apiKey fetch encU c with
    | ok v => simp [hc] at h
    | error e => simp [hc]
  · intro β fetch items
    refine ⟨by simp [tracesPOST, BatchResp.resultsOf, batchLoop_eq_map], ?_⟩
    intro c h
    unfold tracesItem at h ⊢
    cases hc : tracesItemCore apiKey fetch c with
    | ok v => simp [hc] at h
    | error e => simp [hc]
  · intro β fetch items
    refine ⟨by simp [domainsPOST, BatchResp.resultsOf, batchLoop_eq_map], ?_⟩
    intro c h
    unfold domainsItem at h ⊢
    cases hc : domainsItemCore apiKey fetch c with
    | ok v => simp [hc] at h
    | error e => simp [hc]

/-- Witness for `C3_batch_order_isolation`: a one-item gas-price batch
whose upstream fails; the entry-correspondence holds and the failing item
is recorded with an error string. -/
theorem C3_batch_order_isolation_witness :
    (gaspricePOST (β := Unit) (some "k") (fun _ => .httpError 500 "ISE" "boom")
        (some [⟨none, none⟩])).resultsOf =
      [⟨none, none⟩].map (gaspriceItem (some "k") (fun _ => .httpError 500 "ISE" "boom")) ∧
    ((gaspriceItem (β := Unit) (some "k") (fun _ => .httpError 500 "ISE" "boom")
        ⟨none, none⟩).error).isSome := by
  have h := (C3_batch_order_isolation (some "k")).1 Unit
    (fun _ => .httpError 500 "ISE" "boom") [⟨none, none⟩]
  exact ⟨h.1, h.2 ⟨none, none⟩ (by decide)⟩

/-- C9: for every batch POST response (gas price, NFT, portfolio, tokens,
traces, domains), total equals the input length, successful counts the
success:true entries, failed counts the success:false entries,
successful + failed = total, and the top-level success flag is true — also
when every individual item failed, since the conclusion holds for
arbitrary fetch oracles. -/
theorem C9_batch_summary (apiKey : Option String) :
    (∀ (β : Type) (fetch : FetchCall → FetchOutcome β) (items : List ChainReq),
       (gaspricePOST apiKey fetch (some items)).totalOf = items.length ∧
       (gaspricePOST apiKey fetch (some items)).successfulOf =
         (((gaspricePOST apiKey fetch (some items)).resultsOf.filter (fun r => r.success))).length ∧
       (gaspricePOST apiKey fetch (some items)).failedOf =
         (((gaspricePOST apiKey fetch (some items)).resultsOf.filter (fun r => !r.success))).length ∧
       (gaspricePOST apiKey fetch (some items)).successfulOf +
         (gaspricePOST apiKey fetch (some items)).failedOf =
         (gaspricePOST apiKey fetch (some items)).totalOf ∧
       (gaspricePOST apiKey fetch (some items)).topSuccess = true) ∧
    (∀ (α : Type) (fetch : FetchCall → FetchOutcome (NftBody α)) (items : List NftReq),
       (nftPOST apiKey fetch (some items)).totalOf = items.length ∧
       (nftPOST apiKey fetch (some items)).successfulOf =
         (((nftPOST apiKey fetch (some items)).resultsOf.filter (fun r => r.success))).length ∧
       (nftPOST apiKey fetch (some items)).failedOf =
         (((nftPOST apiKey fetch (some items)).resultsOf.filter (fun r => !r.success))).length ∧
       (nftPOST apiKey fetch (some items)).successfulOf +
         (nftPOST apiKey fetch (some items)).failedOf =
         (nftPOST apiKey fetch (some items)).totalOf ∧
       (nftPOST apiKey fetch (some items)).topSuccess = true) ∧
    (∀ (β : Type) (fetch : FetchCall → FetchOutcome β) (items : List PortfolioOp),
       (portfolioPOST apiKey fetch (some items)).totalOf = items.length ∧
       (portfolioPOST apiKey fetch (some items)).successfulOf =
         (((portfolioPOST apiKey fetch (some items)).resultsOf.filter (fun r => r.success))).length ∧
       (portfolioPOST apiKey fetch (some items)).failedOf =
         (((portfolioPOST apiKey fetch (some items)).resultsOf.filter (fun r => !r.success))).length ∧
       (portfolioPOST apiKey fetch (some items)).successfulOf +
         (portfolioPOST apiKey fetch (some items)).failedOf =
         (portfolioPOST apiKey fetch (some items)).totalOf ∧
       (portfolioPOST apiKey fetch (some items)).topSuccess = true) ∧
    (∀ (β : Type) (fetch : FetchCall → FetchOutcome β) (encU : String → String) (items : List TokensOp),
       (tokensPOST apiKey fetch encU (some items)).totalOf = items.length ∧
       (tokensPOST apiKey fetch encU (some items)).successfulOf =
         (((tokensPOST apiKey fetch encU (some items)).resultsOf.filter (fun r => r.success))).length ∧
       (tokensPOST apiKey fetch encU (some items)).failedOf =
         (((tokensPOST apiKey fetch encU (some items)).resultsOf.filter (fun r => !r.success))).length ∧
       (tokensPOST apiKey fetch encU (some items)).successfulOf +
         (tokensPOST apiKey fetch encU (some items)).failedOf =
         (tokensPOST apiKey fetch encU (some items)).totalOf ∧
       (tokensPOST apiKey fetch encU (some items)).topSuccess = true) ∧
    (∀ (β : Type) (fetch : FetchCall → FetchOutcome β) (items : List TracesOp),
       (tracesPOST apiKey fetch (some items)).totalOf = items.length ∧
       (tracesPOST apiKey fetch (some items)).successfulOf =
         (((tracesPOST apiKey fetch (some items)).resultsOf.filter (fun r => r.success))).length ∧
       (tracesPOST apiKey fetch (some items)).failedOf =
         (((tracesPOST apiKey fetch (some items)).resultsOf.filter (fun r => !r.success))).length ∧
       (tracesPOST apiKey fetch (some items)).successfulOf +
         (tracesPOST apiKey fetch (some items)).failedOf =
         (tracesPOST apiKey fetch (some items)).totalOf ∧
       (tracesPOST apiKey fetch (some items)).topSuccess = true) ∧
    (∀ (β : Type) (fetch : FetchCall → FetchOutcome β) (items : List DomainsOp),
       (domainsPOST apiKey fetch (some items)).totalOf = items.length ∧
       (domainsPOST apiKey fetch (some items)).successfulOf =
         (((domainsPOST apiKey fetch (some items)).resultsOf.filter (fun r => r.success))).length ∧
       (domainsPOST apiKey fetch (some items)).failedOf =
         (((domainsPOST apiKey fetch (some items)).resultsOf.filter (fun r => !r.success))).length ∧
       (domainsPOST apiKey fetch (some items)).successfulOf +
         (domainsPOST apiKey fetch (some items)).failedOf =
         (domainsPOST apiKey fetch (some items)).totalOf ∧
       (domainsPOST apiKey fetch (some items)).topSuccess = true) := by
  refine ⟨?_, ?_, ?_, ?_, ?_, ?_⟩
  · intro β fetch items
    refine ⟨rfl, rfl, rfl, ?_, rfl⟩
    show ((batchLoop (gaspriceItem apiKey fetch) items).filter (fun r => r.success)).length +
        ((batchLoop (gaspriceItem apiKey fetch) items).filter (fun r => !r.success)).length = items.length
    rw [filter_length_add_filter_not_length, batchLoop_eq_map, List.length_map]
  · intro α fetch items
    refine ⟨rfl, rfl, rfl, ?_, rfl⟩
    show ((batchLoop (nftItem apiKey fetch) items).filter (fun r => r.success)).length +
        ((batchLoop (nftItem apiKey fetch) items).filter (fun r => !r.success)).length = items.length
    rw [filter_length_add_filter_not_length, batchLoop_eq_map, List.length_map]
  · intro β fetch items
    refine ⟨rfl, rfl, rfl, ?_, rfl⟩
    show ((batchLoop (portfolioItem apiKey fetch) items).filter (fun r => r.success)).length +
        ((batchLoop (portfolioItem apiKey fetch) items).filter (fun r => !r.success)).length = items.length
    rw [filter_length_add_filter_not_length, batchLoop_eq_map, List.length_map]
  · intro β fetch encU items
    refine ⟨rfl, rfl, rfl, ?_, rfl⟩
    show ((batchLoop (tokensItem apiKey fetch encU) items).filter (fun r => r.success)).length +
        ((batchLoop (tokensItem apiKey fetch encU) items).filter (fun r => !r.success)).length = items.length
    rw [filter_length_add_filter_not_length, batchLoop_eq_map, List.length_map]
  · intro β fetch items
    refine ⟨rfl, rfl, rfl, ?_, rfl⟩
    show ((batchLoop (tracesItem apiKey fetch) items).filter (fun r => r.success)).length +
        ((batchLoop (tracesItem apiKey fetch) items).filter (fun r => !r.success)).length = items.length
    rw [filter_length_add_filter_not_length, batchLoop_eq_map, List.length_map]
  · intro β fetch items
    refine ⟨rfl, rfl, rfl, ?_, rfl⟩
    show ((batchLoop (domainsItem apiKey fetch) items).filter (fun r => r.success)).length +
        ((batchLoop (domainsItem apiKey fetch) items).filter (fun r => !r.success)).length = items.length
    rw [filter_length_add_filter_not_length, batchLoop_eq_map, List.length_map]

/-- C6: for a well-formed address, the NFT GET handler answers 400 with an
error message and no upstream request when the (defaulted) limit parameter
parses to NaN or out of the range 1..100, or the (defaulted) offset
parameter parses to NaN or negative; otherwise the numeric parameters are
accepted and the upstream request is made. -/
theorem C6_nft_numeric_validation (apiKey : Option String) (α : Type)
    (fetch : FetchCall → FetchOutcome (NftBody α)) (a : String)
    (ha : isHexAddress a = true) (chainIds0 limit0 offset0 : Option String) :
    (jsParseInt (jsOrS limit0 "50") = none →
       (nftGET apiKey fetch (some a) chainIds0 limit0 offset0).status = 400 ∧
       (nftGET apiKey fetch (some a) chainIds0 limit0 offset0).body =
         .err "Limit must be a number between 1 and 100" none ∧
       (nftGET apiKey fetch (some a) chainIds0 limit0 offset0).fetched = []) ∧
    (∀ n : Int, jsParseInt (jsOrS limit0 "50") = some n → (n < 1 ∨ 100 < n) →
       (nftGET apiKey fetch (some a) chainIds0 limit0 offset0).status = 400 ∧
       (nftGET apiKey fetch (some a) chainIds0 limit0 offset0).body =
         .err "Limit must be a number between 1 and 100" none ∧
       (nftGET apiKey fetch (some a) chainIds0 limit0 offset0).fetched = []) ∧
    (∀ n : Int, jsParseInt (jsOrS limit0 "50") = some n → 1 ≤ n → n ≤ 100 →
       jsParseInt (jsOrS offset0 "0") = none →
       (nftGET apiKey fetch (some a) chainIds0 limit0 offset0).status = 400 ∧
       (nftGET apiKey fetch (some a) chainIds0 limit0 offset0).body =
         .err "Offset must be a non-negative number" none ∧
       (nftGET apiKey fetch (some a) chainIds0 limit0 offset0).fetched = []) ∧
    (∀ n m : Int, jsParseInt (jsOrS limit0 "50") = some n → 1 ≤ n → n ≤ 100 →
       jsParseInt (jsOrS offset0 "0") = some m → m < 0 →
       (nftGET apiKey fetch (some a) chainIds0 limit0 offset0).status = 400 ∧
       (nftGET apiKey fetch (some a) chainIds0 limit0 offset0).body =
         .err "Offset must be a non-negative number" none ∧
       (nftGET apiKey fetch (some a) chainIds0 limit0 offset0).fetched = []) ∧
    (∀ n m : Int, jsParseInt (jsOrS limit0 "50") = some n → 1 ≤ n → n ≤ 100 →
       jsParseInt (jsOrS offset0 "0") = some m → 0 ≤ m →
       (nftGET apiKey fetch (some a) chainIds0 limit0 offset0).fetched =
         [fetchCallOf apiKey (nftUrl a (jsOrS chainIds0 "1") (jsOrS limit0 "50") (jsOrS offset0 "0"))]) := by
  have hne : a ≠ "" := by
    intro h
    rw [h] at ha
    exact absurd ha (by decide)
  refine ⟨?_, ?_, ?_, ?_, ?_⟩
  · intro hl
    simp [nftGET, hne, ha, hl]
  · intro n hl hrange
    simp [nftGET, hne, ha, hl, hrange]
  · intro n hl h1 h2 ho
    have hrange : ¬ (n < 1 ∨ 100 < n) := by omega
    simp [nftGET, hne, ha, hl, hrange, ho]
  · intro n m hl h1 h2 ho hm
    have hrange : ¬ (n < 1 ∨ 100 < n) := by omega
    simp [nftGET, hne, ha, hl, hrange, ho, hm]
  · intro n m hl h1 h2 ho hm
    have hrange : ¬ (n < 1 ∨ 100 < n) := by omega
    have hm' : ¬ (m < 0) := by omega
    cases hmr : makeRequest fetch apiKey (nftUrl a (jsOrS chainIds0 "1") (jsOrS limit0 "50") (jsOrS offset0 "0")) with
    | ok b => simp [nftGET, hne, ha, hl, hrange, ho, hm', hmr]
    | error e => simp [nftGET, hne, ha, hl, hrange, ho, hm', hmr]

/-- Witness for `C6_nft_numeric_validation`: `limit=0` is rejected with
400 and no fetch; `limit=50, offset=0` (the defaults) lead to an upstream
request. -/
theorem C6_nft_numeric_validation_witness :
    (nftGET (α := Unit) (some "k") (fun _ => .ok ⟨none⟩)
        (some "0x1111111111111111111111111111111111111111") none (some "0") none).status = 400 ∧
    (nftGET (α := Unit) (some "k") (fun _ => .ok ⟨none⟩)
        (some "0x1111111111111111111111111111111111111111") none (some "0") none).fetched = [] ∧
    (nftGET (α := Unit) (some "k") (fun _ => .ok ⟨none⟩)
        (some "0x1111111111111111111111111111111111111111") none none none).fetched =
      [fetchCallOf (some "k")
        (nftUrl "0x1111111111111111111111111111111111111111" (jsOrS none "1") (jsOrS none "50") (jsOrS none "0"))] := by
  have h1 := (C6_nft_numeric_validation (some "k") Unit (fun _ => .ok ⟨none⟩)
    "0x1111111111111111111111111111111111111111" (by decide) none (some "0") none).2.1
    0 (by decide) (by decide)
  have h2 := (C6_nft_numeric_validation (some "k") Unit (fun _ => .ok ⟨none⟩)
    "0x1111111111111111111111111111111111111111" (by decide) none none none).2.2.2.2
    50 0 (by decide) (by decide) (by decide) (by decide) (by decide)
  exact ⟨h1.1, h1.2.2, h2⟩

/-- C10: for a successful NFT GET request whose upstream body contains an
assets array `l`, the transformed data has `totalItems = l.length`,
`hasMore` true exactly when `l.length` equals the parsed limit, and
`nextOffset` equal to parsed offset plus parsed limit regardless of how
many assets were returned. -/
theorem C10_nft_pagination (apiKey : Option String) (α : Type) (l : List α)
    (a : String) (ha : isHexAddress a = true) (chainIds0 limit0 offset0 : Option String)
    (n m : Int) (hn : jsParseInt (jsOrS limit0 "50") = some n) (hn1 : 1 ≤ n) (hn2 : n ≤ 100)
    (hm : jsParseInt (jsOrS offset0 "0") = some m) (hm0 : 0 ≤ m) :
    (nftGET apiKey (fun _ => .ok ⟨some l⟩) (some a) chainIds0 limit0 offset0).status = 200 ∧
    ∃ d : NftData α,
      (nftGET apiKey (fun _ => .ok ⟨some l⟩) (some a) chainIds0 limit0 offset0).body =
        .payload ⟨true, d⟩ ∧
      d.totalItems = l.length ∧
      (d.hasMore = true ↔ (l.length : Int) = n) ∧
      d.nextOffset = m + n := by
  have hne : a ≠ "" := by
    intro h
    rw [h] at ha
    exact absurd ha (by decide)
  have hrange : ¬ (n < 1 ∨ 100 < n) := by omega
  have hm' : ¬ (m < 0) := by omega
  refine ⟨?_, nftTransform ⟨some l⟩ a (jsOrS chainIds0 "1") n m, ?_, ?_, ?_, ?_⟩
  · simp [nftGET, hne, ha, hn, hrange, hm, hm', makeRequest]
  · simp [nftGET, hne, ha, hn, hrange, hm, hm', makeRequest]
  · simp [nftTransform]
  · simp [nftTransform]
  · simp [nftTransform]

/-- Witness for `C10_nft_pagination`: two assets with `limit=2, offset=3`
give `totalItems = 2`, `hasMore = true` and `nextOffset = 5`. -/
theorem C10_nft_pagination_witness :
    (nftGET (α := Unit) (some "k") (fun _ => .ok ⟨some [(), ()]⟩)
        (some "0x1111111111111111111111111111111111111111") none (some "2") (some "3")).status = 200 ∧
    ∃ d : NftData Unit,
      (nftGET (α := Unit) (some "k") (fun _ => .ok ⟨some [(), ()]⟩)
          (some "0x1111111111111111111111111111111111111111") none (some "2") (some "3")).body =
        .payload ⟨true, d⟩ ∧
      d.totalItems = 2 ∧
      (d.hasMore = true ↔ ((2 : Nat) : Int) = 2) ∧
      d.nextOffset = 3 + 2 := by
  have h := C10_nft_pagination (some "k") Unit [(), ()]
    "0x1111111111111111111111111111111111111111" (by decide) none (some "2") (some "3")
    2 3 (by decide) (by decide) (by decide) (by decide) (by decide)
  exact h

/-- C7 (counterexample): the claim says a request with an unrecognized
action is answered with a message naming the valid actions; but the
portfolio handler validates the addresses parameter before its action
switch, so with action "mint" and addresses missing it answers 400
"Wallet addresses parameter is required" — a message that does not name
the valid actions. -/
theorem C7_counterexample :
    (portfolioGET (β := Unit) (some "k") (fun _ => .ok ()) (some "mint") none none none none).status = 400 ∧
    (portfolioGET (β := Unit) (some "k") (fun _ => .ok ()) (some "mint") none none none none).body =
      .err "Wallet addresses parameter is required" none ∧
    (RouteBody.err "Wallet addresses parameter is required" none :
        RouteBody (PortfolioPayload Unit)) ≠
      .err "Invalid action. Use: currentValue, profitAndLoss, tokenDetails, or all" none := by
  refine ⟨rfl, rfl, by decide⟩

/-- C7 (amended): the action-dispatching single-request handlers
(portfolio, traces, domains, tokens, spot-price) answer 400 with a message
naming the valid actions and make no upstream request when the action
parameter is missing (where it is required: portfolio, traces, domains) or
is not one of the recognized values — except that the portfolio handler
checks the addresses parameter before its action switch, so on an
unrecognized action it always answers 400 with no upstream request, but
the action-naming message appears only once the addresses parameter is
present and valid (otherwise the 400 carries the addresses error
instead). -/
theorem C7_action_dispatch (apiKey : Option String) :
    (∀ (β : Type) (fetch : FetchCall → FetchOutcome β) (action0 addresses0 chainId0 fromTs0 toTs0 : Option String),
       jsTruthy action0 = false →
       (portfolioGET apiKey fetch action0 addresses0 chainId0 fromTs0 toTs0).status = 400 ∧
       (portfolioGET apiKey fetch action0 addresses0 chainId0 fromTs0 toTs0).body =
         .err "Action parameter is required. Use: currentValue, profitAndLoss, tokenDetails, or all" none ∧
       (portfolioGET apiKey fetch action0 addresses0 chainId0 fromTs0 toTs0).fetched = []) ∧
    (∀ (β : Type) (fetch : FetchCall → FetchOutcome β) (act : String) (addresses0 chainId0 fromTs0 toTs0 : Option String),
       act ≠ "" → act ≠ "currentValue" → act ≠ "profitAndLoss" → act ≠ "tokenDetails" → act ≠ "all" →
       ((portfolioGET apiKey fetch (some act) addresses0 chainId0 fromTs0 toTs0).status = 400 ∧
        (portfolioGET apiKey fetch (some act) addresses0 chainId0 fromTs0 toTs0).fetched = []) ∧
       (∀ addrs : String, addresses0 = some addrs → addrs ≠ "" → validAddrList addrs = true →
          (portfolioGET apiKey fetch (some act) addresses0 chainId0 fromTs0 toTs0).body =
            .err "Invalid action. Use: currentValue, profitAndLoss, tokenDetails, or all" none)) ∧
    (∀ (β : Type) (fetch : FetchCall → FetchOutcome β) (action0 chain0 bn0 tx0 : Option String),
       jsTruthy action0 = false →
       (tracesGET apiKey fetch action0 chain0 bn0 tx0).status = 400 ∧
       (tracesGET apiKey fetch action0 chain0 bn0 tx0).body =
         .err "Action parameter is required. Use: syncedInterval, blockTrace, or txTrace" none ∧
       (tracesGET apiKey fetch action0 chain0 bn0 tx0).fetched = []) ∧
    (∀ (β : Type) (fetch : FetchCall → FetchOutcome β) (act : String) (chain0 bn0 tx0 : Option String),
       act ≠ "" → act ≠ "syncedInterval" → act ≠ "blockTrace" → act ≠ "txTrace" →
       (tracesGET apiKey fetch (some act) chain0 bn0 tx0).status = 400 ∧
       (tracesGET apiKey fetch (some act) chain0 bn0 tx0).body =
         .err "Invalid action. Use: syncedInterval, blockTrace, or txTrace" none ∧
       (tracesGET apiKey fetch (some act) chain0 bn0 tx0).fetched = []) ∧
    (∀ (β : Type) (fetch : FetchCall → FetchOutcome β) (domain0 address0 : Option String),
       (∀ action0 : Option String, jsTruthy action0 = false →
          (domainsGET apiKey fetch action0 domain0 address0).status = 400 ∧
          (domainsGET apiKey fetch action0 domain0 address0).body =
            .err "Action parameter is required. Use: lookup, reverseLookup, or providersData" none ∧
          (domainsGET apiKey fetch action0 domain0 address0).fetched = []) ∧
       (∀ act : String,
          act ≠ "" → act ≠ "lookup" → act ≠ "reverseLookup" → act ≠ "providersData" →
          (domainsGET apiKey fetch (some act) domain0 address0).status = 400 ∧
          (domainsGET apiKey fetch (some act) domain0 address0).body =
            .err "Invalid action. Use: lookup, reverseLookup, or providersData" none ∧
          (domainsGET apiKey fetch (some act) domain0 address0).fetched = [])) ∧
    (∀ (β : Type) (fetch : FetchCall → FetchOutcome β) (encU : String → String)
       (act : String) (chain0 query0 addresses0 limit0 ignoreListed0 provider0 chainId0 : Option String),
       act ≠ "" → act ≠ "search" → act ≠ "custom" → act ≠ "all" → act ≠ "tokenList" →
       (tokensGET apiKey fetch encU (some act) chain0 query0 addresses0 limit0 ignoreListed0 provider0 chainId0).status = 400 ∧
       (tokensGET apiKey fetch encU (some act) chain0 query0 addresses0 limit0 ignoreListed0 provider0 chainId0).body =
         .err "Invalid action. Use: search, custom, all, or tokenList" none ∧
       (tokensGET apiKey fetch encU (some act) chain0 query0 addresses0 limit0 ignoreListed0 provider0 chainId0).fetched = []) ∧
    (∀ (β : Type) (fetch : FetchCall → FetchOutcome β) (act : String) (chain0 addresses0 chainId0 : Option String),
       act ≠ "" → act ≠ "whitelisted" → act ≠ "addresses" →
       (spotpriceGET apiKey fetch (some act) chain0 addresses0 chainId0).status = 400 ∧
       (spotpriceGET apiKey fetch (some act) chain0 addresses0 chainId0).body =
         .err "Invalid action. Use: whitelisted or addresses" none ∧
       (spotpriceGET apiKey fetch (some act) chain0 addresses0 chainId0).fetched = []) := by
  refine ⟨?_, ?_, ?_, ?_, ?_, ?_, ?_⟩
  · intro β fetch action0 addresses0 chainId0 fromTs0 toTs0 hact
    simp [portfolioGET, hact]
  · intro β fetch act addresses0 chainId0 fromTs0 toTs0 hne h1 h2 h3 h4
    have hact : jsTruthy (some act) = true := by simp [jsTruthy, hne]
    constructor
    · by_cases haddr : jsTruthy addresses0 = false
      · simp [portfolioGET, hact, haddr]
      · by_cases hvalid : validAddrList (addresses0.getD "") = false
        · simp [portfolioGET, hact, haddr, hvalid]
        · simp [portfolioGET, hact, haddr, hvalid, h1, h2, h3, h4]
    · intro addrs haddrs haddrne hvalid
      subst haddrs
      have htr : jsTruthy (some addrs) = true := by simp [jsTruthy, haddrne]
      simp [portfolioGET, hact, htr, hvalid, h1, h2, h3, h4]
  · intro β fetch action0 chain0 bn0 tx0 hact
    simp [tracesGET, hact]
  · intro β fetch act chain0 bn0 tx0 hne h1 h2 h3
    have hact : jsTruthy (some act) = true := by simp [jsTruthy, hne]
    simp [tracesGET, hact, h1, h2, h3]
  · intro β fetch domain0 address0
    constructor
    · intro action0 hact
      simp [domainsGET, hact]
    · intro act hne h1 h2 h3
      have hact : jsTruthy (some act) = true := by simp [jsTruthy, hne]
      simp [domainsGET, hact, h1, h2, h3]
  · intro β fetch encU act chain0 query0 addresses0 limit0 ignoreListed0 provider0 chainId0 hne h1 h2 h3 h4
    have hact : jsOrS (some act) "all" = act := by simp [jsOrS, hne]
    simp [tokensGET, hact, h1, h2, h3, h4]
  · intro β fetch act chain0 addresses0 chainId0 hne h1 h2
    have hact : jsOrS (some act) "whitelisted" = act := by simp [jsOrS, hne]
    simp [spotpriceGET, hact, h1, h2]

/-- Witness for `C7_action_dispatch`: the unrecognized action "mint" and a
missing action are rejected with 400 and no upstream request by the five
dispatching handlers. -/
theorem C7_action_dispatch_witness :
    ((portfolioGET (β := Unit) (some "k") (fun _ => .ok ()) none none none none none).status = 400) ∧
    ((portfolioGET (β := Unit) (some "k") (fun _ => .ok ()) (some "mint")
        (some "0x1111111111111111111111111111111111111111") none none none).body =
      .err "Invalid action. Use: currentValue, profitAndLoss, tokenDetails, or all" none) ∧
    ((tracesGET (β := Unit) (some "k") (fun _ => .ok ()) (some "mint") none none none).status = 400 ∧
     (tracesGET (β := Unit) (some "k") (fun _ => .ok ()) (some "mint") none none none).fetched = []) ∧
    ((domainsGET (β := Unit) (some "k") (fun _ => .ok ()) (some "mint") none none).status = 400) ∧
    ((tokensGET (β := Unit) (some "k") (fun _ => .ok ()) id (some "mint") none none none none none none none).status = 400) ∧
    ((spotpriceGET (β := Unit) (some "k") (fun _ => .ok ()) (some "mint") none none none).status = 400) := by
  have h := C7_action_dispatch (some "k")
  refine ⟨(h.1 Unit (fun _ => .ok ()) none none none none none (by decide)).1, ?_, ?_, ?_, ?_, ?_⟩
  · exact (h.2.1 Unit (fun _ => .ok ()) "mint"
      (some "0x1111111111111111111111111111111111111111") none none none
      (by decide) (by decide) (by decide) (by decide) (by decide)).2
      "0x1111111111111111111111111111111111111111" rfl (by decide) (by decide)
  · have ht := h.2.2.2.1 Unit (fun _ => .ok ()) "mint" none none none
      (by decide) (by decide) (by decide) (by decide)
    exact ⟨ht.1, ht.2.2⟩
  · exact ((h.2.2.2.2.1 Unit (fun _ => .ok ()) none none).2 "mint"
      (by decide) (by decide) (by decide) (by decide)).1
  · exact (h.2.2.2.2.2.1 Unit (fun _ => .ok ()) id "mint" none none none none none none none
      (by decide) (by decide) (by decide) (by decide) (by decide)).1
  · exact (h.2.2.2.2.2.2 Unit (fun _ => .ok ()) "mint" none none none
      (by decide) (by decide) (by decide)).1

end OneInch
